import Mathlib

/-!
# Verification of the wolfsmuehle networking core

A shallow embedding of the server-side networking substrate of the
wolfsmuehle board game: the binary wire codec (`src/net/protocol.rs`,
`src/net/data_repr.rs`), the room registry (`src/net/server/room.rs`,
`src/player.rs`), the multicast router (`src/net/server/multicast.rs`)
and the per-connection message dispatch (`src/net/server.rs`).

Bytes are modelled as natural numbers (`< 256` where it matters), byte
buffers as `List Nat`.  The Rust functions' absolute read offsets are
rendered as sequential consumption of the remaining byte list, which is
equivalent because every decoder reads its fields in order at
monotonically advancing offsets.  Fallible Rust functions returning
`anyhow::Result` become `Except String`.
-/

deriving instance DecidableEq for Except

namespace Wolfsmuehle

/-! ## data_repr.rs: network byte order primitives -/

/-- `u32::to_net` / `to_be_bytes`: big-endian byte decomposition. -/
def toNet32 (v : Nat) : List Nat :=
  [v / 2 ^ 24 % 256, v / 2 ^ 16 % 256, v / 2 ^ 8 % 256, v % 256]

/-- `u32::from_net`: read a big-endian `u32` from the first four bytes;
`None` models the `Not enough data` error when fewer than 4 bytes remain. -/
def fromNet32 (data : List Nat) : Option Nat :=
  match data with
  | b0 :: b1 :: b2 :: b3 :: _ =>
      some (b0 * 2 ^ 24 + b1 * 2 ^ 16 + b2 * 2 ^ 8 + b3)
  | _ => none

theorem toNet32_length (v : Nat) : (toNet32 v).length = 4 := rfl

theorem fromNet32_append_toNet32 (v : Nat) (rest : List Nat) :
    fromNet32 (toNet32 v ++ rest) = some (v % 2 ^ 32) := by
  simp only [toNet32, fromNet32, List.cons_append, List.nil_append, Option.some.injEq]
  omega

theorem fromNet32_toNet32 (v : Nat) (rest : List Nat) (h : v < 2 ^ 32) :
    fromNet32 (toNet32 v ++ rest) = some v := by
  rw [fromNet32_append_toNet32, Nat.mod_eq_of_lt h]

theorem drop_toNet32 (v : Nat) (rest : List Nat) :
    (toNet32 v ++ rest).drop 4 = rest := rfl

theorem fromNet32_eq_none_iff (data : List Nat) :
    fromNet32 data = none ↔ data.length < 4 := by
  match data with
  | [] => simp [fromNet32]
  | [_] => simp [fromNet32]
  | [_, _] => simp [fromNet32]
  | [_, _, _] => simp [fromNet32]
  | _ :: _ :: _ :: _ :: _ => simp [fromNet32]

theorem fromNet32_isSome_of_length (data : List Nat) (h : 4 ≤ data.length) :
    ∃ v, fromNet32 data = some v := by
  match data, h with
  | b0 :: b1 :: b2 :: b3 :: rest, _ => exact ⟨_, rfl⟩

/-- The first four bytes determine `fromNet32`, so appending may be dropped
when at least four bytes are already present. -/
theorem fromNet32_append_left (xs ys : List Nat) (h : 4 ≤ xs.length) :
    fromNet32 (xs ++ ys) = fromNet32 xs := by
  match xs, h with
  | b0 :: b1 :: b2 :: b3 :: rest, _ => rfl

/-! ## protocol.rs: constants -/

def MSG_BUFFER_SIZE : Nat := 0x1000
def MSG_MAGIC : Nat := 0xAA0E1F37
def MSG_HEADER_SIZE : Nat := 4 * 8

def MSG_MAXROOMNAME : Nat := 64
def MSG_MAXPLAYERNAME : Nat := 64
def MSG_RESULT_MAXMSGLEN : Nat := 0x200
def MSG_MAXRECORDLEN : Nat := 0x200
def MSG_SAY_MAXMSGLEN : Nat := 0x200

def MSG_ID_NOP : Nat := 0
def MSG_ID_RESULT : Nat := 1
def MSG_ID_PING : Nat := 2
def MSG_ID_PONG : Nat := 3
def MSG_ID_JOIN : Nat := 4
def MSG_ID_LEAVE : Nat := 5
def MSG_ID_RESET : Nat := 6
def MSG_ID_REQROOMLIST : Nat := 7
def MSG_ID_ROOMLIST : Nat := 8
def MSG_ID_REQPLAYERLIST : Nat := 9
def MSG_ID_PLAYERLIST : Nat := 10
def MSG_ID_REQGAMESTATE : Nat := 11
def MSG_ID_GAMESTATE : Nat := 12
def MSG_ID_MOVE : Nat := 13
def MSG_ID_SAY : Nat := 14
def MSG_ID_REQRECORD : Nat := 15
def MSG_ID_RECORD : Nat := 16

def MSG_RESULT_OK : Nat := 0
def MSG_RESULT_NOK : Nat := 1

/-- board.rs: `BOARD_WIDTH`. -/
def BOARD_WIDTH : Nat := 5
/-- board.rs: `BOARD_HEIGHT`. -/
def BOARD_HEIGHT : Nat := 7

/-! ## protocol.rs: message header -/

/-- `MsgHeader`: the fixed 32-byte message header. -/
structure MsgHeader where
  magic : Nat
  size : Nat
  id : Nat
  sequence : Nat
  reserved : List Nat
deriving DecidableEq, Repr

/-- `MsgHeader::new`: the reserved words are zeroed. -/
def MsgHeader.new (magic size id sequence : Nat) : MsgHeader :=
  ⟨magic, size, id, sequence, [0, 0, 0, 0]⟩

/-- `MsgHeader::to_bytes`. -/
def MsgHeader.toBytes (h : MsgHeader) : List Nat :=
  toNet32 h.magic ++ toNet32 h.size ++ toNet32 h.id ++ toNet32 h.sequence ++
    (h.reserved.map toNet32).flatten

/-- `MsgHeader::from_bytes`: validates magic and size bounds, skips the
reserved words, rebuilds the header through `MsgHeader::new`. -/
def MsgHeader.fromBytes (data : List Nat) : Except String (Nat × MsgHeader) :=
  if MSG_HEADER_SIZE ≤ data.length then
    match fromNet32 data with
    | none => .error "from_net u32: Not enough data."
    | some magic =>
      if magic ≠ MSG_MAGIC then
        .error "from_bytes: Invalid Message magic."
      else
        match fromNet32 (data.drop 4) with
        | none => .error "from_net u32: Not enough data."
        | some size =>
          if size < MSG_HEADER_SIZE then
            .error "from_bytes: Invalid Message length (too small)."
          else if MSG_BUFFER_SIZE < size then
            .error "from_bytes: Invalid Message length (too large)."
          else
            match fromNet32 ((data.drop 4).drop 4) with
            | none => .error "from_net u32: Not enough data."
            | some id =>
              match fromNet32 (((data.drop 4).drop 4).drop 4) with
              | none => .error "from_net u32: Not enough data."
              | some sequence =>
                .ok (MSG_HEADER_SIZE, MsgHeader.new magic size id sequence)
  else
    .error "MsgHeader: Not enough data."

/-- The well-formedness a header obtains from `MsgHeader::new` plus the
decoder's own validity checks. -/
def MsgHeader.WF (h : MsgHeader) : Prop :=
  h.magic = MSG_MAGIC ∧ MSG_HEADER_SIZE ≤ h.size ∧ h.size ≤ MSG_BUFFER_SIZE ∧
    h.id < 2 ^ 32 ∧ h.sequence < 2 ^ 32 ∧ h.reserved = [0, 0, 0, 0]

instance (h : MsgHeader) : Decidable h.WF := by
  unfold MsgHeader.WF; infer_instance

theorem msgHeaderBytesLength (h : MsgHeader) (hres : h.reserved = [0, 0, 0, 0]) :
    h.toBytes.length = MSG_HEADER_SIZE := by
  simp [MsgHeader.toBytes, hres, toNet32, MSG_HEADER_SIZE]

theorem MsgHeader.toBytes_eq (h : MsgHeader) (hres : h.reserved = [0, 0, 0, 0]) :
    h.toBytes = toNet32 h.magic ++ (toNet32 h.size ++ (toNet32 h.id ++
      (toNet32 h.sequence ++ (toNet32 0 ++ (toNet32 0 ++ (toNet32 0 ++ toNet32 0)))))) := by
  simp [MsgHeader.toBytes, hres]

theorem MsgHeader.fromBytes_toBytes (h : MsgHeader) (hwf : h.WF) (rest : List Nat) :
    MsgHeader.fromBytes (h.toBytes ++ rest) = .ok (MSG_HEADER_SIZE, h) := by
  obtain ⟨hmagic, hlo, hhi, hid, hseq, hres⟩ := hwf
  have hsize32 : h.size < 2 ^ 32 := by
    have : MSG_BUFFER_SIZE < 2 ^ 32 := by norm_num [MSG_BUFFER_SIZE]
    omega
  have hmagic32 : h.magic < 2 ^ 32 := by
    rw [hmagic]; norm_num [MSG_MAGIC]
  have hlen : MSG_HEADER_SIZE ≤ (h.toBytes ++ rest).length := by
    rw [List.length_append, msgHeaderBytesLength h hres]; omega
  rw [MsgHeader.fromBytes, if_pos hlen]
  rw [MsgHeader.toBytes_eq h hres, List.append_assoc, List.append_assoc,
    List.append_assoc, List.append_assoc, List.append_assoc, List.append_assoc,
    List.append_assoc]
  simp only [drop_toNet32, fromNet32_toNet32 _ _ hmagic32,
    fromNet32_toNet32 _ _ hsize32, fromNet32_toNet32 _ _ hid,
    fromNet32_toNet32 _ _ hseq]
  rw [if_neg (by simp [hmagic]), if_neg (by omega), if_neg (by omega)]
  cases h with
  | mk magic size id sequence reserved =>
    simp only at hmagic hres
    simp [MsgHeader.new, hmagic, hres]

/-! ## protocol.rs: messages

`MsgType` is a tagged union over all message kinds.  Each Rust message
struct is one constructor carrying its payload fields; the fixed-capacity
byte buffers are `List Nat` whose length invariants appear in the
admissibility predicate below. -/

inductive MsgBody where
  | nop | ping | pong | leave | reset
  | reqRoomList | reqPlayerList | reqGameState | reqRecord
  | result (inReplyTo : MsgHeader) (resultCode messageLen : Nat) (message : List Nat)
  | join (roomNameLen : Nat) (roomName : List Nat)
      (playerNameLen : Nat) (playerName : List Nat) (playerMode : Nat)
  | gameState (fields : List Nat) (movingState movingX movingY turn : Nat)
  | record (totalCount index recordLen : Nat) (record : List Nat)
  | roomList (totalCount index roomNameLen : Nat) (roomName : List Nat)
  | playerList (totalCount index playerNameLen : Nat) (playerName : List Nat)
      (playerMode : Nat)
  | move (action token coordX coordY : Nat)
  | say (playerNameLen : Nat) (playerName : List Nat) (messageLen : Nat)
      (message : List Nat)
deriving DecidableEq, Repr

structure Msg where
  header : MsgHeader
  body : MsgBody
deriving DecidableEq, Repr

def MSG_RESULT_SIZE : Nat :=
  MSG_HEADER_SIZE + MSG_HEADER_SIZE + 2 * 4 + MSG_RESULT_MAXMSGLEN
def MSG_JOIN_SIZE : Nat :=
  MSG_HEADER_SIZE + 4 + MSG_MAXROOMNAME + 4 + MSG_MAXPLAYERNAME + 4
def MSG_GAME_STATE_SIZE : Nat :=
  MSG_HEADER_SIZE + BOARD_WIDTH * BOARD_HEIGHT * 4 + 4 * 4
def MSG_RECORD_SIZE : Nat := MSG_HEADER_SIZE + 3 * 4 + MSG_MAXRECORDLEN
def MSG_ROOM_LIST_SIZE : Nat := MSG_HEADER_SIZE + 3 * 4 + MSG_MAXROOMNAME
def MSG_PLAYER_LIST_SIZE : Nat := MSG_HEADER_SIZE + 3 * 4 + MSG_MAXPLAYERNAME + 4
def MSG_MOVE_SIZE : Nat := MSG_HEADER_SIZE + 4 * 4
def MSG_SAY_SIZE : Nat :=
  MSG_HEADER_SIZE + 4 + MSG_MAXPLAYERNAME + 4 + MSG_SAY_MAXMSGLEN

/-- The numeric type id of each message kind (`MSG_ID_*`). -/
def msgId : MsgBody → Nat
  | .nop => MSG_ID_NOP
  | .result _ _ _ _ => MSG_ID_RESULT
  | .ping => MSG_ID_PING
  | .pong => MSG_ID_PONG
  | .join _ _ _ _ _ => MSG_ID_JOIN
  | .leave => MSG_ID_LEAVE
  | .reset => MSG_ID_RESET
  | .reqRoomList => MSG_ID_REQROOMLIST
  | .roomList _ _ _ _ => MSG_ID_ROOMLIST
  | .reqPlayerList => MSG_ID_REQPLAYERLIST
  | .playerList _ _ _ _ _ => MSG_ID_PLAYERLIST
  | .reqGameState => MSG_ID_REQGAMESTATE
  | .gameState _ _ _ _ _ => MSG_ID_GAMESTATE
  | .move _ _ _ _ => MSG_ID_MOVE
  | .say _ _ _ _ => MSG_ID_SAY
  | .reqRecord => MSG_ID_REQRECORD
  | .record _ _ _ _ => MSG_ID_RECORD

/-- The statically known total encoded size of each message kind. -/
def msgSize : MsgBody → Nat
  | .result _ _ _ _ => MSG_RESULT_SIZE
  | .join _ _ _ _ _ => MSG_JOIN_SIZE
  | .gameState _ _ _ _ _ => MSG_GAME_STATE_SIZE
  | .record _ _ _ _ => MSG_RECORD_SIZE
  | .roomList _ _ _ _ => MSG_ROOM_LIST_SIZE
  | .playerList _ _ _ _ _ => MSG_PLAYER_LIST_SIZE
  | .move _ _ _ _ => MSG_MOVE_SIZE
  | .say _ _ _ _ => MSG_SAY_SIZE
  | _ => MSG_HEADER_SIZE

/-- Encoding of a flat list of `u32` words in declared order
(the `for y / for x` loops of `MsgGameState`). -/
def wordsToBytes : List Nat → List Nat
  | [] => []
  | w :: ws => toNet32 w ++ wordsToBytes ws

/-- `to_bytes` of the payload following the header, field by field in
declared order. -/
def MsgBody.toBytes : MsgBody → List Nat
  | .result irt code mlen msg =>
      irt.toBytes ++ toNet32 code ++ toNet32 mlen ++ msg
  | .join rlen rname plen pname pmode =>
      toNet32 rlen ++ rname ++ toNet32 plen ++ pname ++ toNet32 pmode
  | .gameState fs ms mx my t =>
      wordsToBytes fs ++ toNet32 ms ++ toNet32 mx ++ toNet32 my ++ toNet32 t
  | .record tc idx rlen rec =>
      toNet32 tc ++ toNet32 idx ++ toNet32 rlen ++ rec
  | .roomList tc idx rlen rname =>
      toNet32 tc ++ toNet32 idx ++ toNet32 rlen ++ rname
  | .playerList tc idx plen pname pmode =>
      toNet32 tc ++ toNet32 idx ++ toNet32 plen ++ pname ++ toNet32 pmode
  | .move a t x y => toNet32 a ++ toNet32 t ++ toNet32 x ++ toNet32 y
  | .say plen pname mlen msg =>
      toNet32 plen ++ pname ++ toNet32 mlen ++ msg
  | _ => []

/-- `Message::to_bytes`: header then payload. -/
def Msg.toBytes (m : Msg) : List Nat := m.header.toBytes ++ m.body.toBytes

/-- The `extract_str!` macro: 4-byte length (clamped to the capacity),
then the fixed-capacity zero-padded buffer; consumes `4 + maxLen` bytes. -/
def extractStr (maxLen : Nat) (data : List Nat) :
    Option (Nat × List Nat × List Nat) :=
  match fromNet32 data with
  | none => none
  | some l =>
    let len := min l maxLen
    some (len, (data.drop 4).take len ++ List.replicate (maxLen - len) 0,
      (data.drop 4).drop maxLen)

/-- `define_trivial_message!`'s `from_bytes`: no payload is read. -/
def trivialFromBytes (b : MsgBody) (header : MsgHeader) (_data : List Nat) :
    Except String (Nat × Msg) :=
  .ok (0, ⟨header, b⟩)

/-- `MsgResult::from_bytes`. -/
def MsgResult.fromBytes (header : MsgHeader) (data : List Nat) :
    Except String (Nat × Msg) :=
  if MSG_RESULT_SIZE - MSG_HEADER_SIZE ≤ data.length then
    match MsgHeader.fromBytes data with
    | .error e => .error e
    | .ok (count, inReplyTo) =>
      match fromNet32 (data.drop count) with
      | none => .error "from_net u32: Not enough data."
      | some resultCode =>
        match extractStr MSG_RESULT_MAXMSGLEN ((data.drop count).drop 4) with
        | none => .error "from_net u32: Not enough data."
        | some (messageLen, message, _rest) =>
          .ok (MSG_RESULT_SIZE - MSG_HEADER_SIZE,
            ⟨header, .result inReplyTo resultCode messageLen message⟩)
  else .error "MsgResult: Not enough data."

/-- `MsgJoin::from_bytes`. -/
def MsgJoin.fromBytes (header : MsgHeader) (data : List Nat) :
    Except String (Nat × Msg) :=
  if MSG_JOIN_SIZE - MSG_HEADER_SIZE ≤ data.length then
    match extractStr MSG_MAXROOMNAME data with
    | none => .error "from_net u32: Not enough data."
    | some (rlen, rname, d1) =>
      match extractStr MSG_MAXPLAYERNAME d1 with
      | none => .error "from_net u32: Not enough data."
      | some (plen, pname, d2) =>
        match fromNet32 d2 with
        | none => .error "from_net u32: Not enough data."
        | some pmode =>
          .ok (MSG_JOIN_SIZE - MSG_HEADER_SIZE,
            ⟨header, .join rlen rname plen pname pmode⟩)
  else .error "MsgJoin: Not enough data."

/-- Read `n` consecutive big-endian `u32` words
(the `for y / for x` decode loop of `MsgGameState`). -/
def readWords : Nat → List Nat → Option (List Nat × List Nat)
  | 0, data => some ([], data)
  | n + 1, data =>
    match fromNet32 data with
    | none => none
    | some w =>
      match readWords n (data.drop 4) with
      | none => none
      | some (ws, rest) => some (w :: ws, rest)

/-- `MsgGameState::from_bytes`. -/
def MsgGameState.fromBytes (header : MsgHeader) (data : List Nat) :
    Except String (Nat × Msg) :=
  if MSG_GAME_STATE_SIZE - MSG_HEADER_SIZE ≤ data.length then
    match readWords (BOARD_WIDTH * BOARD_HEIGHT) data with
    | none => .error "from_net u32: Not enough data."
    | some (fields, d1) =>
      match fromNet32 d1 with
      | none => .error "from_net u32: Not enough data."
      | some ms =>
        match fromNet32 (d1.drop 4) with
        | none => .error "from_net u32: Not enough data."
        | some mx =>
          match fromNet32 ((d1.drop 4).drop 4) with
          | none => .error "from_net u32: Not enough data."
          | some my =>
            match fromNet32 (((d1.drop 4).drop 4).drop 4) with
            | none => .error "from_net u32: Not enough data."
            | some t =>
              .ok (MSG_GAME_STATE_SIZE - MSG_HEADER_SIZE,
                ⟨header, .gameState fields ms mx my t⟩)
  else .error "MsgGameState: Not enough data."

/-- `MsgRecord::from_bytes`. -/
def MsgRecord.fromBytes (header : MsgHeader) (data : List Nat) :
    Except String (Nat × Msg) :=
  if MSG_RECORD_SIZE - MSG_HEADER_SIZE ≤ data.length then
    match fromNet32 data with
    | none => .error "from_net u32: Not enough data."
    | some tc =>
      match fromNet32 (data.drop 4) with
      | none => .error "from_net u32: Not enough data."
      | some idx =>
        match extractStr MSG_MAXRECORDLEN ((data.drop 4).drop 4) with
        | none => .error "from_net u32: Not enough data."
        | some (rlen, rec, _rest) =>
          .ok (MSG_RECORD_SIZE - MSG_HEADER_SIZE,
            ⟨header, .record tc idx rlen rec⟩)
  else .error "MsgRecord: Not enough data."

/-- `MsgRoomList::from_bytes`. -/
def MsgRoomList.fromBytes (header : MsgHeader) (data : List Nat) :
    Except String (Nat × Msg) :=
  if MSG_ROOM_LIST_SIZE - MSG_HEADER_SIZE ≤ data.length then
    match fromNet32 data with
    | none => .error "from_net u32: Not enough data."
    | some tc =>
      match fromNet32 (data.drop 4) with
      | none => .error "from_net u32: Not enough data."
      | some idx =>
        match extractStr MSG_MAXROOMNAME ((data.drop 4).drop 4) with
        | none => .error "from_net u32: Not enough data."
        | some (rlen, rname, _rest) =>
          .ok (MSG_ROOM_LIST_SIZE - MSG_HEADER_SIZE,
            ⟨header, .roomList tc idx rlen rname⟩)
  else .error "MsgRoomList: Not enough data."

/-- `MsgPlayerList::from_bytes`. -/
def MsgPlayerList.fromBytes (header : MsgHeader) (data : List Nat) :
    Except String (Nat × Msg) :=
  if MSG_PLAYER_LIST_SIZE - MSG_HEADER_SIZE ≤ data.length then
    match fromNet32 data with
    | none => .error "from_net u32: Not enough data."
    | some tc =>
      match fromNet32 (data.drop 4) with
      | none => .error "from_net u32: Not enough data."
      | some idx =>
        match extractStr MSG_MAXPLAYERNAME ((data.drop 4).drop 4) with
        | none => .error "from_net u32: Not enough data."
        | some (plen, pname, d1) =>
          match fromNet32 d1 with
          | none => .error "from_net u32: Not enough data."
          | some pmode =>
            .ok (MSG_PLAYER_LIST_SIZE - MSG_HEADER_SIZE,
              ⟨header, .playerList tc idx plen pname pmode⟩)
  else .error "MsgPlayerList: Not enough data."

/-- `MsgMove::from_bytes`. -/
def MsgMove.fromBytes (header : MsgHeader) (data : List Nat) :
    Except String (Nat × Msg) :=
  if MSG_MOVE_SIZE - MSG_HEADER_SIZE ≤ data.length then
    match fromNet32 data with
    | none => .error "from_net u32: Not enough data."
    | some a =>
      match fromNet32 (data.drop 4) with
      | none => .error "from_net u32: Not enough data."
      | some t =>
        match fromNet32 ((data.drop 4).drop 4) with
        | none => .error "from_net u32: Not enough data."
        | some x =>
          match fromNet32 (((data.drop 4).drop 4).drop 4) with
          | none => .error "from_net u32: Not enough data."
          | some y =>
            .ok (MSG_MOVE_SIZE - MSG_HEADER_SIZE, ⟨header, .move a t x y⟩)
  else .error "MsgMove: Not enough data."

/-- `MsgSay::from_bytes`. -/
def MsgSay.fromBytes (header : MsgHeader) (data : List Nat) :
    Except String (Nat × Msg) :=
  if MSG_SAY_SIZE - MSG_HEADER_SIZE ≤ data.length then
    match extractStr MSG_MAXPLAYERNAME data with
    | none => .error "from_net u32: Not enough data."
    | some (plen, pname, d1) =>
      match extractStr MSG_SAY_MAXMSGLEN d1 with
      | none => .error "from_net u32: Not enough data."
      | some (mlen, msg, _rest) =>
        .ok (MSG_SAY_SIZE - MSG_HEADER_SIZE, ⟨header, .say plen pname mlen msg⟩)
  else .error "MsgSay: Not enough data."

/-- The type-id dispatch table of `message_from_bytes`. -/
def decodeBody (header : MsgHeader) (data : List Nat) :
    Except String (Nat × Msg) :=
  if header.id = MSG_ID_NOP then trivialFromBytes .nop header data
  else if header.id = MSG_ID_RESULT then MsgResult.fromBytes header data
  else if header.id = MSG_ID_PING then trivialFromBytes .ping header data
  else if header.id = MSG_ID_PONG then trivialFromBytes .pong header data
  else if header.id = MSG_ID_JOIN then MsgJoin.fromBytes header data
  else if header.id = MSG_ID_LEAVE then trivialFromBytes .leave header data
  else if header.id = MSG_ID_RESET then trivialFromBytes .reset header data
  else if header.id = MSG_ID_REQROOMLIST then
    trivialFromBytes .reqRoomList header data
  else if header.id = MSG_ID_ROOMLIST then MsgRoomList.fromBytes header data
  else if header.id = MSG_ID_REQPLAYERLIST then
    trivialFromBytes .reqPlayerList header data
  else if header.id = MSG_ID_PLAYERLIST then MsgPlayerList.fromBytes header data
  else if header.id = MSG_ID_REQGAMESTATE then
    trivialFromBytes .reqGameState header data
  else if header.id = MSG_ID_GAMESTATE then MsgGameState.fromBytes header data
  else if header.id = MSG_ID_MOVE then MsgMove.fromBytes header data
  else if header.id = MSG_ID_SAY then MsgSay.fromBytes header data
  else if header.id = MSG_ID_REQRECORD then
    trivialFromBytes .reqRecord header data
  else if header.id = MSG_ID_RECORD then MsgRecord.fromBytes header data
  else .error "from_bytes: Unknown ID."

/-- `message_from_bytes`: returns the consumed byte count and the decoded
message; `(0, none)` models the `IncompleteData` outcome. -/
def message_from_bytes (data : List Nat) : Except String (Nat × Option Msg) :=
  if data.length < MSG_HEADER_SIZE then .ok (0, none)
  else
    match MsgHeader.fromBytes data with
    | .error e => .error e
    | .ok (offset, header) =>
      if data.length < header.size then .ok (0, none)
      else
        match decodeBody header (data.drop offset) with
        | .error e => .error e
        | .ok (_subSize, msg) => .ok (header.size, some msg)

/-- The scan loop of `net_sync`: checks `n` consecutive offsets starting at
`skip` (the Rust loop `for skip in 0..(len - 4)` runs `len - 4` iterations,
so the offset `len - 4` itself is never inspected). -/
def netSyncLoop (data : List Nat) (skip : Nat) : Nat → Option Nat
  | 0 => none
  | n + 1 =>
    if fromNet32 (data.drop skip) = some MSG_MAGIC then some skip
    else netSyncLoop data (skip + 1) n

/-- `net_sync`. -/
def net_sync (data : List Nat) : Option Nat :=
  if 4 ≤ data.length then netSyncLoop data 0 (data.length - 4) else none

/-- `buffer_skip`: drop the first `skip_len` bytes (both Rust branches —
full clear and `split_off` — agree with `List.drop`). -/
def buffer_skip (buffer : List Nat) (skipLen : Nat) : List Nat :=
  buffer.drop skipLen

/-! ## Admissible messages

What the Rust constructors (`new`, `set_sequence`, the `extract_str!`
decoder) guarantee: header built by `MsgHeader::new` with the type's id
and static size, string fields zero-padded beyond their length, all `u32`
fields in range. -/

/-- A length-prefixed fixed-capacity string field as produced by
`str::to_net`: length within the cap, buffer exactly `cap` bytes,
zero-padded after `len`. -/
def strFieldAdm (cap len : Nat) (buf : List Nat) : Prop :=
  len ≤ cap ∧ buf.length = cap ∧ buf.drop len = List.replicate (cap - len) 0

instance (cap len : Nat) (buf : List Nat) : Decidable (strFieldAdm cap len buf) := by
  unfold strFieldAdm; infer_instance

def MsgBody.Adm : MsgBody → Prop
  | .result irt code mlen msg =>
      irt.WF ∧ code < 2 ^ 32 ∧ strFieldAdm MSG_RESULT_MAXMSGLEN mlen msg
  | .join rlen rname plen pname pmode =>
      strFieldAdm MSG_MAXROOMNAME rlen rname ∧
        strFieldAdm MSG_MAXPLAYERNAME plen pname ∧ pmode < 2 ^ 32
  | .gameState fs ms mx my t =>
      fs.length = BOARD_WIDTH * BOARD_HEIGHT ∧ (∀ w ∈ fs, w < 2 ^ 32) ∧
        ms < 2 ^ 32 ∧ mx < 2 ^ 32 ∧ my < 2 ^ 32 ∧ t < 2 ^ 32
  | .record tc idx rlen rec =>
      tc < 2 ^ 32 ∧ idx < 2 ^ 32 ∧ strFieldAdm MSG_MAXRECORDLEN rlen rec
  | .roomList tc idx rlen rname =>
      tc < 2 ^ 32 ∧ idx < 2 ^ 32 ∧ strFieldAdm MSG_MAXROOMNAME rlen rname
  | .playerList tc idx plen pname pmode =>
      tc < 2 ^ 32 ∧ idx < 2 ^ 32 ∧
        strFieldAdm MSG_MAXPLAYERNAME plen pname ∧ pmode < 2 ^ 32
  | .move a t x y => a < 2 ^ 32 ∧ t < 2 ^ 32 ∧ x < 2 ^ 32 ∧ y < 2 ^ 32
  | .say plen pname mlen msg =>
      strFieldAdm MSG_MAXPLAYERNAME plen pname ∧
        strFieldAdm MSG_SAY_MAXMSGLEN mlen msg
  | _ => True

instance (b : MsgBody) : Decidable b.Adm := by
  cases b <;> (simp only [MsgBody.Adm]; infer_instance)

/-- Admissibility of a whole message. -/
def Msg.Adm (m : Msg) : Prop :=
  m.header.magic = MSG_MAGIC ∧ m.header.size = msgSize m.body ∧
    m.header.id = msgId m.body ∧ m.header.sequence < 2 ^ 32 ∧
    m.header.reserved = [0, 0, 0, 0] ∧ m.body.Adm

instance (m : Msg) : Decidable m.Adm := by
  unfold Msg.Adm; infer_instance

/-! ## Round-trip lemmas for the codec -/

theorem fromNet32_toNet32_nil (v : Nat) (h : v < 2 ^ 32) :
    fromNet32 (toNet32 v) = some v := by
  simpa using fromNet32_toNet32 v [] h

theorem wordsToBytes_length (ws : List Nat) :
    (wordsToBytes ws).length = 4 * ws.length := by
  induction ws with
  | nil => rfl
  | cons w ws ih => simp [wordsToBytes, toNet32, ih]; ring

theorem extractStr_roundtrip (cap len : Nat) (buf rest : List Nat)
    (hcap : cap < 2 ^ 32) (h : strFieldAdm cap len buf) :
    extractStr cap (toNet32 len ++ (buf ++ rest)) = some (len, buf, rest) := by
  obtain ⟨hle, hlen, hzero⟩ := h
  simp only [extractStr, fromNet32_toNet32 len _ (lt_of_le_of_lt hle hcap),
    drop_toNet32, min_eq_left hle]
  rw [List.take_append_of_le_length (hlen ▸ hle), ← hzero,
    List.take_append_drop, List.drop_left' hlen]

theorem readWords_roundtrip (ws rest : List Nat) (h : ∀ w ∈ ws, w < 2 ^ 32) :
    readWords ws.length (wordsToBytes ws ++ rest) = some (ws, rest) := by
  induction ws with
  | nil => simp [readWords, wordsToBytes]
  | cons w ws ih =>
    simp only [wordsToBytes, List.length_cons, readWords, List.append_assoc,
      fromNet32_toNet32 w _ (h w (by simp)), drop_toNet32,
      ih (fun x hx => h x (by simp [hx]))]

theorem msgBodyBytesLength (b : MsgBody) (h : b.Adm) :
    b.toBytes.length = msgSize b - MSG_HEADER_SIZE := by
  cases b with
  | result irt code mlen msg =>
    obtain ⟨hwf, -, -, hlen, -⟩ := h
    simp [MsgBody.toBytes, msgHeaderBytesLength irt hwf.2.2.2.2.2,
      toNet32_length, hlen, msgSize, MSG_RESULT_SIZE, MSG_HEADER_SIZE,
      MSG_RESULT_MAXMSGLEN]
  | join rlen rname plen pname pmode =>
    obtain ⟨⟨-, h1, -⟩, ⟨-, h2, -⟩, -⟩ := h
    simp [MsgBody.toBytes, toNet32_length, h1, h2, msgSize, MSG_JOIN_SIZE,
      MSG_HEADER_SIZE, MSG_MAXROOMNAME, MSG_MAXPLAYERNAME]
  | gameState fs ms mx my t =>
    obtain ⟨hlen, -⟩ := h
    simp [MsgBody.toBytes, wordsToBytes_length, hlen, toNet32_length, msgSize,
      MSG_GAME_STATE_SIZE, MSG_HEADER_SIZE, BOARD_WIDTH, BOARD_HEIGHT]
  | record tc idx rlen rec =>
    obtain ⟨-, -, -, hlen, -⟩ := h
    simp [MsgBody.toBytes, toNet32_length, hlen, msgSize, MSG_RECORD_SIZE,
      MSG_HEADER_SIZE, MSG_MAXRECORDLEN]
  | roomList tc idx rlen rname =>
    obtain ⟨-, -, -, hlen, -⟩ := h
    simp [MsgBody.toBytes, toNet32_length, hlen, msgSize, MSG_ROOM_LIST_SIZE,
      MSG_HEADER_SIZE, MSG_MAXROOMNAME]
  | playerList tc idx plen pname pmode =>
    obtain ⟨-, -, ⟨-, hlen, -⟩, -⟩ := h
    simp [MsgBody.toBytes, toNet32_length, hlen, msgSize, MSG_PLAYER_LIST_SIZE,
      MSG_HEADER_SIZE, MSG_MAXPLAYERNAME]
  | move a t x y =>
    simp [MsgBody.toBytes, toNet32_length, msgSize, MSG_MOVE_SIZE,
      MSG_HEADER_SIZE]
  | say plen pname mlen msg =>
    obtain ⟨⟨-, h1, -⟩, ⟨-, h2, -⟩⟩ := h
    simp [MsgBody.toBytes, toNet32_length, h1, h2, msgSize, MSG_SAY_SIZE,
      MSG_HEADER_SIZE, MSG_MAXPLAYERNAME, MSG_SAY_MAXMSGLEN]
  | nop => simp [MsgBody.toBytes, msgSize, MSG_HEADER_SIZE]
  | ping => simp [MsgBody.toBytes, msgSize, MSG_HEADER_SIZE]
  | pong => simp [MsgBody.toBytes, msgSize, MSG_HEADER_SIZE]
  | leave => simp [MsgBody.toBytes, msgSize, MSG_HEADER_SIZE]
  | reset => simp [MsgBody.toBytes, msgSize, MSG_HEADER_SIZE]
  | reqRoomList => simp [MsgBody.toBytes, msgSize, MSG_HEADER_SIZE]
  | reqPlayerList => simp [MsgBody.toBytes, msgSize, MSG_HEADER_SIZE]
  | reqGameState => simp [MsgBody.toBytes, msgSize, MSG_HEADER_SIZE]
  | reqRecord => simp [MsgBody.toBytes, msgSize, MSG_HEADER_SIZE]

theorem msgSize_bounds (b : MsgBody) :
    MSG_HEADER_SIZE ≤ msgSize b ∧ msgSize b ≤ MSG_BUFFER_SIZE := by
  cases b <;> simp [msgSize, MSG_HEADER_SIZE, MSG_BUFFER_SIZE, MSG_RESULT_SIZE,
    MSG_JOIN_SIZE, MSG_GAME_STATE_SIZE, MSG_RECORD_SIZE, MSG_ROOM_LIST_SIZE,
    MSG_PLAYER_LIST_SIZE, MSG_MOVE_SIZE, MSG_SAY_SIZE, MSG_RESULT_MAXMSGLEN,
    MSG_MAXROOMNAME, MSG_MAXPLAYERNAME, MSG_MAXRECORDLEN, MSG_SAY_MAXMSGLEN,
    BOARD_WIDTH, BOARD_HEIGHT]

theorem msgId_lt (b : MsgBody) : msgId b < 2 ^ 32 := by
  cases b <;> simp [msgId, MSG_ID_NOP, MSG_ID_RESULT, MSG_ID_PING, MSG_ID_PONG,
    MSG_ID_JOIN, MSG_ID_LEAVE, MSG_ID_RESET, MSG_ID_REQROOMLIST,
    MSG_ID_ROOMLIST, MSG_ID_REQPLAYERLIST, MSG_ID_PLAYERLIST,
    MSG_ID_REQGAMESTATE, MSG_ID_GAMESTATE, MSG_ID_MOVE, MSG_ID_SAY,
    MSG_ID_REQRECORD, MSG_ID_RECORD]

theorem Msg.header_WF (m : Msg) (h : m.Adm) : m.header.WF := by
  obtain ⟨hmagic, hsize, hid, hseq, hres, -⟩ := h
  refine ⟨hmagic, ?_, ?_, ?_, hseq, hres⟩
  · rw [hsize]; exact (msgSize_bounds m.body).1
  · rw [hsize]; exact (msgSize_bounds m.body).2
  · rw [hid]; exact msgId_lt m.body

theorem msgBytesLength (m : Msg) (h : m.Adm) :
    m.toBytes.length = msgSize m.body := by
  have h1 := msgHeaderBytesLength m.header h.2.2.2.2.1
  have h2 := msgBodyBytesLength m.body h.2.2.2.2.2
  have h3 := (msgSize_bounds m.body).1
  simp [Msg.toBytes, h1, h2]
  omega

theorem extractStr_roundtrip_nil (cap len : Nat) (buf : List Nat)
    (hcap : cap < 2 ^ 32) (h : strFieldAdm cap len buf) :
    extractStr cap (toNet32 len ++ buf) = some (len, buf, []) := by
  have := extractStr_roundtrip cap len buf [] hcap h
  simpa using this

theorem decode_result (header irt : MsgHeader) (code mlen : Nat) (msg : List Nat)
    (h : (MsgBody.result irt code mlen msg).Adm) :
    MsgResult.fromBytes header (MsgBody.result irt code mlen msg).toBytes =
      .ok (MSG_RESULT_SIZE - MSG_HEADER_SIZE,
        ⟨header, .result irt code mlen msg⟩) := by
  have hlen := msgBodyBytesLength _ h
  obtain ⟨hwf, hcode, hstr⟩ := h
  rw [MsgResult.fromBytes, if_pos (by rw [hlen]; simp [msgSize])]
  simp only [MsgBody.toBytes, List.append_assoc]
  simp only [MsgHeader.fromBytes_toBytes irt hwf,
    List.drop_left' (msgHeaderBytesLength irt hwf.2.2.2.2.2),
    fromNet32_toNet32 code _ hcode, drop_toNet32]
  rw [show toNet32 mlen ++ msg = toNet32 mlen ++ (msg ++ []) by simp]
  simp only [extractStr_roundtrip _ _ _ _ (by norm_num [MSG_RESULT_MAXMSGLEN]) hstr]

theorem decode_join (header : MsgHeader) (rlen plen pmode : Nat)
    (rname pname : List Nat)
    (h : (MsgBody.join rlen rname plen pname pmode).Adm) :
    MsgJoin.fromBytes header (MsgBody.join rlen rname plen pname pmode).toBytes =
      .ok (MSG_JOIN_SIZE - MSG_HEADER_SIZE,
        ⟨header, .join rlen rname plen pname pmode⟩) := by
  have hlen := msgBodyBytesLength _ h
  obtain ⟨h1, h2, h3⟩ := h
  rw [MsgJoin.fromBytes, if_pos (by rw [hlen]; simp [msgSize])]
  simp only [MsgBody.toBytes, List.append_assoc]
  simp only [extractStr_roundtrip _ _ _ _ (by norm_num [MSG_MAXROOMNAME]) h1,
    extractStr_roundtrip _ _ _ _ (by norm_num [MSG_MAXPLAYERNAME]) h2,
    fromNet32_toNet32_nil pmode h3]

theorem decode_gameState (header : MsgHeader) (fs : List Nat)
    (ms mx my t : Nat) (h : (MsgBody.gameState fs ms mx my t).Adm) :
    MsgGameState.fromBytes header (MsgBody.gameState fs ms mx my t).toBytes =
      .ok (MSG_GAME_STATE_SIZE - MSG_HEADER_SIZE,
        ⟨header, .gameState fs ms mx my t⟩) := by
  have hlen := msgBodyBytesLength _ h
  obtain ⟨hflen, hfs, hms, hmx, hmy, ht⟩ := h
  rw [MsgGameState.fromBytes, if_pos (by rw [hlen]; simp [msgSize])]
  simp only [MsgBody.toBytes, List.append_assoc]
  rw [show BOARD_WIDTH * BOARD_HEIGHT = fs.length by rw [hflen]]
  simp only [readWords_roundtrip fs _ hfs, fromNet32_toNet32 ms _ hms,
    drop_toNet32, fromNet32_toNet32 mx _ hmx, fromNet32_toNet32 my _ hmy,
    fromNet32_toNet32_nil t ht]

theorem decode_record (header : MsgHeader) (tc idx rlen : Nat)
    (rec : List Nat) (h : (MsgBody.record tc idx rlen rec).Adm) :
    MsgRecord.fromBytes header (MsgBody.record tc idx rlen rec).toBytes =
      .ok (MSG_RECORD_SIZE - MSG_HEADER_SIZE,
        ⟨header, .record tc idx rlen rec⟩) := by
  have hlen := msgBodyBytesLength _ h
  obtain ⟨htc, hidx, hstr⟩ := h
  rw [MsgRecord.fromBytes, if_pos (by rw [hlen]; simp [msgSize])]
  simp only [MsgBody.toBytes, List.append_assoc]
  simp only [fromNet32_toNet32 tc _ htc, drop_toNet32,
    fromNet32_toNet32 idx _ hidx]
  simp only [extractStr_roundtrip_nil _ _ _ (by norm_num [MSG_MAXRECORDLEN]) hstr]

theorem decode_roomList (header : MsgHeader) (tc idx rlen : Nat)
    (rname : List Nat) (h : (MsgBody.roomList tc idx rlen rname).Adm) :
    MsgRoomList.fromBytes header (MsgBody.roomList tc idx rlen rname).toBytes =
      .ok (MSG_ROOM_LIST_SIZE - MSG_HEADER_SIZE,
        ⟨header, .roomList tc idx rlen rname⟩) := by
  have hlen := msgBodyBytesLength _ h
  obtain ⟨htc, hidx, hstr⟩ := h
  rw [MsgRoomList.fromBytes, if_pos (by rw [hlen]; simp [msgSize])]
  simp only [MsgBody.toBytes, List.append_assoc]
  simp only [fromNet32_toNet32 tc _ htc, drop_toNet32,
    fromNet32_toNet32 idx _ hidx]
  simp only [extractStr_roundtrip_nil _ _ _ (by norm_num [MSG_MAXROOMNAME]) hstr]

theorem decode_playerList (header : MsgHeader) (tc idx plen pmode : Nat)
    (pname : List Nat) (h : (MsgBody.playerList tc idx plen pname pmode).Adm) :
    MsgPlayerList.fromBytes header
        (MsgBody.playerList tc idx plen pname pmode).toBytes =
      .ok (MSG_PLAYER_LIST_SIZE - MSG_HEADER_SIZE,
        ⟨header, .playerList tc idx plen pname pmode⟩) := by
  have hlen := msgBodyBytesLength _ h
  obtain ⟨htc, hidx, hstr, hpm⟩ := h
  rw [MsgPlayerList.fromBytes, if_pos (by rw [hlen]; simp [msgSize])]
  simp only [MsgBody.toBytes, List.append_assoc]
  simp only [fromNet32_toNet32 tc _ htc, drop_toNet32,
    fromNet32_toNet32 idx _ hidx]
  simp only [extractStr_roundtrip _ _ _ _ (by norm_num [MSG_MAXPLAYERNAME]) hstr,
    fromNet32_toNet32_nil pmode hpm]

theorem decode_move (header : MsgHeader) (a t x y : Nat)
    (h : (MsgBody.move a t x y).Adm) :
    MsgMove.fromBytes header (MsgBody.move a t x y).toBytes =
      .ok (MSG_MOVE_SIZE - MSG_HEADER_SIZE, ⟨header, .move a t x y⟩) := by
  have hlen := msgBodyBytesLength _ h
  obtain ⟨ha, ht, hx, hy⟩ := h
  rw [MsgMove.fromBytes, if_pos (by rw [hlen]; simp [msgSize])]
  simp only [MsgBody.toBytes, List.append_assoc]
  simp only [fromNet32_toNet32 a _ ha, drop_toNet32, fromNet32_toNet32 t _ ht,
    fromNet32_toNet32 x _ hx, fromNet32_toNet32_nil y hy]

theorem decode_say (header : MsgHeader) (plen mlen : Nat)
    (pname msg : List Nat) (h : (MsgBody.say plen pname mlen msg).Adm) :
    MsgSay.fromBytes header (MsgBody.say plen pname mlen msg).toBytes =
      .ok (MSG_SAY_SIZE - MSG_HEADER_SIZE,
        ⟨header, .say plen pname mlen msg⟩) := by
  have hlen := msgBodyBytesLength _ h
  obtain ⟨h1, h2⟩ := h
  rw [MsgSay.fromBytes, if_pos (by rw [hlen]; simp [msgSize])]
  simp only [MsgBody.toBytes, List.append_assoc]
  simp only [extractStr_roundtrip _ _ _ _ (by norm_num [MSG_MAXPLAYERNAME]) h1,
    extractStr_roundtrip_nil _ _ _ (by norm_num [MSG_SAY_MAXMSGLEN]) h2]

theorem decodeBody_eq_nop (header : MsgHeader) (data : List Nat)
    (h : header.id = MSG_ID_NOP) :
    decodeBody header data = trivialFromBytes .nop header data := by
  rw [decodeBody, if_pos h]

theorem decodeBody_eq_result (header : MsgHeader) (data : List Nat)
    (h : header.id = MSG_ID_RESULT) :
    decodeBody header data = MsgResult.fromBytes header data := by
  rw [decodeBody, if_neg (by rw [h]; norm_num [MSG_ID_RESULT, MSG_ID_NOP]), if_pos h]

theorem decodeBody_eq_ping (header : MsgHeader) (data : List Nat)
    (h : header.id = MSG_ID_PING) :
    decodeBody header data = trivialFromBytes .ping header data := by
  rw [decodeBody, if_neg (by rw [h]; norm_num [MSG_ID_PING, MSG_ID_NOP]), if_neg (by rw [h]; norm_num [MSG_ID_PING, MSG_ID_RESULT]), if_pos h]

theorem decodeBody_eq_pong (header : MsgHeader) (data : List Nat)
    (h : header.id = MSG_ID_PONG) :
    decodeBody header data = trivialFromBytes .pong header data := by
  rw [decodeBody, if_neg (by rw [h]; norm_num [MSG_ID_PONG, MSG_ID_NOP]), if_neg (by rw [h]; norm_num [MSG_ID_PONG, MSG_ID_RESULT]), if_neg (by rw [h]; norm_num [MSG_ID_PONG, MSG_ID_PING]), if_pos h]

theorem decodeBody_eq_join (header : MsgHeader) (data : List Nat)
    (h : header.id = MSG_ID_JOIN) :
    decodeBody header data = MsgJoin.fromBytes header data := by
  rw [decodeBody, if_neg (by rw [h]; norm_num [MSG_ID_JOIN, MSG_ID_NOP]), if_neg (by rw [h]; norm_num [MSG_ID_JOIN, MSG_ID_RESULT]), if_neg (by rw [h]; norm_num [MSG_ID_JOIN, MSG_ID_PING]), if_neg (by rw [h]; norm_num [MSG_ID_JOIN, MSG_ID_PONG]), if_pos h]

theorem decodeBody_eq_leave (header : MsgHeader) (data : List Nat)
    (h : header.id = MSG_ID_LEAVE) :
    decodeBody header data = trivialFromBytes .leave header data := by
  rw [decodeBody, if_neg (by rw [h]; norm_num [MSG_ID_LEAVE, MSG_ID_NOP]), if_neg (by rw [h]; norm_num [MSG_ID_LEAVE, MSG_ID_RESULT]), if_neg (by rw [h]; norm_num [MSG_ID_LEAVE, MSG_ID_PING]), if_neg (by rw [h]; norm_num [MSG_ID_LEAVE, MSG_ID_PONG]), if_neg (by rw [h]; norm_num [MSG_ID_LEAVE, MSG_ID_JOIN]), if_pos h]

theorem decodeBody_eq_reset (header : MsgHeader) (data : List Nat)
    (h : header.id = MSG_ID_RESET) :
    decodeBody header data = trivialFromBytes .reset header data := by
  rw [decodeBody, if_neg (by rw [h]; norm_num [MSG_ID_RESET, MSG_ID_NOP]), if_neg (by rw [h]; norm_num [MSG_ID_RESET, MSG_ID_RESULT]), if_neg (by rw [h]; norm_num [MSG_ID_RESET, MSG_ID_PING]), if_neg (by rw [h]; norm_num [MSG_ID_RESET, MSG_ID_PONG]), if_neg (by rw [h]; norm_num [MSG_ID_RESET, MSG_ID_JOIN]), if_neg (by rw [h]; norm_num [MSG_ID_RESET, MSG_ID_LEAVE]), if_pos h]

theorem decodeBody_eq_reqRoomList (header : MsgHeader) (data : List Nat)
    (h : header.id = MSG_ID_REQROOMLIST) :
    decodeBody header data = trivialFromBytes .reqRoomList header data := by
  rw [decodeBody, if_neg (by rw [h]; norm_num [MSG_ID_REQROOMLIST, MSG_ID_NOP]), if_neg (by rw [h]; norm_num [MSG_ID_REQROOMLIST, MSG_ID_RESULT]), if_neg (by rw [h]; norm_num [MSG_ID_REQROOMLIST, MSG_ID_PING]), if_neg (by rw [h]; norm_num [MSG_ID_REQROOMLIST, MSG_ID_PONG]), if_neg (by rw [h]; norm_num [MSG_ID_REQROOMLIST, MSG_ID_JOIN]), if_neg (by rw [h]; norm_num [MSG_ID_REQROOMLIST, MSG_ID_LEAVE]), if_neg (by rw [h]; norm_num [MSG_ID_REQROOMLIST, MSG_ID_RESET]), if_pos h]

theorem decodeBody_eq_roomList (header : MsgHeader) (data : List Nat)
    (h : header.id = MSG_ID_ROOMLIST) :
    decodeBody header data = MsgRoomList.fromBytes header data := by
  rw [decodeBody, if_neg (by rw [h]; norm_num [MSG_ID_ROOMLIST, MSG_ID_NOP]), if_neg (by rw [h]; norm_num [MSG_ID_ROOMLIST, MSG_ID_RESULT]), if_neg (by rw [h]; norm_num [MSG_ID_ROOMLIST, MSG_ID_PING]), if_neg (by rw [h]; norm_num [MSG_ID_ROOMLIST, MSG_ID_PONG]), if_neg (by rw [h]; norm_num [MSG_ID_ROOMLIST, MSG_ID_JOIN]), if_neg (by rw [h]; norm_num [MSG_ID_ROOMLIST, MSG_ID_LEAVE]), if_neg (by rw [h]; norm_num [MSG_ID_ROOMLIST, MSG_ID_RESET]), if_neg (by rw [h]; norm_num [MSG_ID_ROOMLIST, MSG_ID_REQROOMLIST]), if_pos h]

theorem decodeBody_eq_reqPlayerList (header : MsgHeader) (data : List Nat)
    (h : header.id = MSG_ID_REQPLAYERLIST) :
    decodeBody header data = trivialFromBytes .reqPlayerList header data := by
  rw [decodeBody, if_neg (by rw [h]; norm_num [MSG_ID_REQPLAYERLIST, MSG_ID_NOP]), if_neg (by rw [h]; norm_num [MSG_ID_REQPLAYERLIST, MSG_ID_RESULT]), if_neg (by rw [h]; norm_num [MSG_ID_REQPLAYERLIST, MSG_ID_PING]), if_neg (by rw [h]; norm_num [MSG_ID_REQPLAYERLIST, MSG_ID_PONG]), if_neg (by rw [h]; norm_num [MSG_ID_REQPLAYERLIST, MSG_ID_JOIN]), if_neg (by rw [h]; norm_num [MSG_ID_REQPLAYERLIST, MSG_ID_LEAVE]), if_neg (by rw [h]; norm_num [MSG_ID_REQPLAYERLIST, MSG_ID_RESET]), if_neg (by rw [h]; norm_num [MSG_ID_REQPLAYERLIST, MSG_ID_REQROOMLIST]), if_neg (by rw [h]; norm_num [MSG_ID_REQPLAYERLIST, MSG_ID_ROOMLIST]), if_pos h]

theorem decodeBody_eq_playerList (header : MsgHeader) (data : List Nat)
    (h : header.id = MSG_ID_PLAYERLIST) :
    decodeBody header data = MsgPlayerList.fromBytes header data := by
  rw [decodeBody, if_neg (by rw [h]; norm_num [MSG_ID_PLAYERLIST, MSG_ID_NOP]), if_neg (by rw [h]; norm_num [MSG_ID_PLAYERLIST, MSG_ID_RESULT]), if_neg (by rw [h]; norm_num [MSG_ID_PLAYERLIST, MSG_ID_PING]), if_neg (by rw [h]; norm_num [MSG_ID_PLAYERLIST, MSG_ID_PONG]), if_neg (by rw [h]; norm_num [MSG_ID_PLAYERLIST, MSG_ID_JOIN]), if_neg (by rw [h]; norm_num [MSG_ID_PLAYERLIST, MSG_ID_LEAVE]), if_neg (by rw [h]; norm_num [MSG_ID_PLAYERLIST, MSG_ID_RESET]), if_neg (by rw [h]; norm_num [MSG_ID_PLAYERLIST, MSG_ID_REQROOMLIST]), if_neg (by rw [h]; norm_num [MSG_ID_PLAYERLIST, MSG_ID_ROOMLIST]), if_neg (by rw [h]; norm_num [MSG_ID_PLAYERLIST, MSG_ID_REQPLAYERLIST]), if_pos h]

theorem decodeBody_eq_reqGameState (header : MsgHeader) (data : List Nat)
    (h : header.id = MSG_ID_REQGAMESTATE) :
    decodeBody header data = trivialFromBytes .reqGameState header data := by
  rw [decodeBody, if_neg (by rw [h]; norm_num [MSG_ID_REQGAMESTATE, MSG_ID_NOP]), if_neg (by rw [h]; norm_num [MSG_ID_REQGAMESTATE, MSG_ID_RESULT]), if_neg (by rw [h]; norm_num [MSG_ID_REQGAMESTATE, MSG_ID_PING]), if_neg (by rw [h]; norm_num [MSG_ID_REQGAMESTATE, MSG_ID_PONG]), if_neg (by rw [h]; norm_num [MSG_ID_REQGAMESTATE, MSG_ID_JOIN]), if_neg (by rw [h]; norm_num [MSG_ID_REQGAMESTATE, MSG_ID_LEAVE]), if_neg (by rw [h]; norm_num [MSG_ID_REQGAMESTATE, MSG_ID_RESET]), if_neg (by rw [h]; norm_num [MSG_ID_REQGAMESTATE, MSG_ID_REQROOMLIST]), if_neg (by rw [h]; norm_num [MSG_ID_REQGAMESTATE, MSG_ID_ROOMLIST]), if_neg (by rw [h]; norm_num [MSG_ID_REQGAMESTATE, MSG_ID_REQPLAYERLIST]), if_neg (by rw [h]; norm_num [MSG_ID_REQGAMESTATE, MSG_ID_PLAYERLIST]), if_pos h]

theorem decodeBody_eq_gameState (header : MsgHeader) (data : List Nat)
    (h : header.id = MSG_ID_GAMESTATE) :
    decodeBody header data = MsgGameState.fromBytes header data := by
  rw [decodeBody, if_neg (by rw [h]; norm_num [MSG_ID_GAMESTATE, MSG_ID_NOP]), if_neg (by rw [h]; norm_num [MSG_ID_GAMESTATE, MSG_ID_RESULT]), if_neg (by rw [h]; norm_num [MSG_ID_GAMESTATE, MSG_ID_PING]), if_neg (by rw [h]; norm_num [MSG_ID_GAMESTATE, MSG_ID_PONG]), if_neg (by rw [h]; norm_num [MSG_ID_GAMESTATE, MSG_ID_JOIN]), if_neg (by rw [h]; norm_num [MSG_ID_GAMESTATE, MSG_ID_LEAVE]), if_neg (by rw [h]; norm_num [MSG_ID_GAMESTATE, MSG_ID_RESET]), if_neg (by rw [h]; norm_num [MSG_ID_GAMESTATE, MSG_ID_REQROOMLIST]), if_neg (by rw [h]; norm_num [MSG_ID_GAMESTATE, MSG_ID_ROOMLIST]), if_neg (by rw [h]; norm_num [MSG_ID_GAMESTATE, MSG_ID_REQPLAYERLIST]), if_neg (by rw [h]; norm_num [MSG_ID_GAMESTATE, MSG_ID_PLAYERLIST]), if_neg (by rw [h]; norm_num [MSG_ID_GAMESTATE, MSG_ID_REQGAMESTATE]), if_pos h]

theorem decodeBody_eq_move (header : MsgHeader) (data : List Nat)
    (h : header.id = MSG_ID_MOVE) :
    decodeBody header data = MsgMove.fromBytes header data := by
  rw [decodeBody, if_neg (by rw [h]; norm_num [MSG_ID_MOVE, MSG_ID_NOP]), if_neg (by rw [h]; norm_num [MSG_ID_MOVE, MSG_ID_RESULT]), if_neg (by rw [h]; norm_num [MSG_ID_MOVE, MSG_ID_PING]), if_neg (by rw [h]; norm_num [MSG_ID_MOVE, MSG_ID_PONG]), if_neg (by rw [h]; norm_num [MSG_ID_MOVE, MSG_ID_JOIN]), if_neg (by rw [h]; norm_num [MSG_ID_MOVE, MSG_ID_LEAVE]), if_neg (by rw [h]; norm_num [MSG_ID_MOVE, MSG_ID_RESET]), if_neg (by rw [h]; norm_num [MSG_ID_MOVE, MSG_ID_REQROOMLIST]), if_neg (by rw [h]; norm_num [MSG_ID_MOVE, MSG_ID_ROOMLIST]), if_neg (by rw [h]; norm_num [MSG_ID_MOVE, MSG_ID_REQPLAYERLIST]), if_neg (by rw [h]; norm_num [MSG_ID_MOVE, MSG_ID_PLAYERLIST]), if_neg (by rw [h]; norm_num [MSG_ID_MOVE, MSG_ID_REQGAMESTATE]), if_neg (by rw [h]; norm_num [MSG_ID_MOVE, MSG_ID_GAMESTATE]), if_pos h]

theorem decodeBody_eq_say (header : MsgHeader) (data : List Nat)
    (h : header.id = MSG_ID_SAY) :
    decodeBody header data = MsgSay.fromBytes header data := by
  rw [decodeBody, if_neg (by rw [h]; norm_num [MSG_ID_SAY, MSG_ID_NOP]), if_neg (by rw [h]; norm_num [MSG_ID_SAY, MSG_ID_RESULT]), if_neg (by rw [h]; norm_num [MSG_ID_SAY, MSG_ID_PING]), if_neg (by rw [h]; norm_num [MSG_ID_SAY, MSG_ID_PONG]), if_neg (by rw [h]; norm_num [MSG_ID_SAY, MSG_ID_JOIN]), if_neg (by rw [h]; norm_num [MSG_ID_SAY, MSG_ID_LEAVE]), if_neg (by rw [h]; norm_num [MSG_ID_SAY, MSG_ID_RESET]), if_neg (by rw [h]; norm_num [MSG_ID_SAY, MSG_ID_REQROOMLIST]), if_neg (by rw [h]; norm_num [MSG_ID_SAY, MSG_ID_ROOMLIST]), if_neg (by rw [h]; norm_num [MSG_ID_SAY, MSG_ID_REQPLAYERLIST]), if_neg (by rw [h]; norm_num [MSG_ID_SAY, MSG_ID_PLAYERLIST]), if_neg (by rw [h]; norm_num [MSG_ID_SAY, MSG_ID_REQGAMESTATE]), if_neg (by rw [h]; norm_num [MSG_ID_SAY, MSG_ID_GAMESTATE]), if_neg (by rw [h]; norm_num [MSG_ID_SAY, MSG_ID_MOVE]), if_pos h]

theorem decodeBody_eq_reqRecord (header : MsgHeader) (data : List Nat)
    (h : header.id = MSG_ID_REQRECORD) :
    decodeBody header data = trivialFromBytes .reqRecord header data := by
  rw [decodeBody, if_neg (by rw [h]; norm_num [MSG_ID_REQRECORD, MSG_ID_NOP]), if_neg (by rw [h]; norm_num [MSG_ID_REQRECORD, MSG_ID_RESULT]), if_neg (by rw [h]; norm_num [MSG_ID_REQRECORD, MSG_ID_PING]), if_neg (by rw [h]; norm_num [MSG_ID_REQRECORD, MSG_ID_PONG]), if_neg (by rw [h]; norm_num [MSG_ID_REQRECORD, MSG_ID_JOIN]), if_neg (by rw [h]; norm_num [MSG_ID_REQRECORD, MSG_ID_LEAVE]), if_neg (by rw [h]; norm_num [MSG_ID_REQRECORD, MSG_ID_RESET]), if_neg (by rw [h]; norm_num [MSG_ID_REQRECORD, MSG_ID_REQROOMLIST]), if_neg (by rw [h]; norm_num [MSG_ID_REQRECORD, MSG_ID_ROOMLIST]), if_neg (by rw [h]; norm_num [MSG_ID_REQRECORD, MSG_ID_REQPLAYERLIST]), if_neg (by rw [h]; norm_num [MSG_ID_REQRECORD, MSG_ID_PLAYERLIST]), if_neg (by rw [h]; norm_num [MSG_ID_REQRECORD, MSG_ID_REQGAMESTATE]), if_neg (by rw [h]; norm_num [MSG_ID_REQRECORD, MSG_ID_GAMESTATE]), if_neg (by rw [h]; norm_num [MSG_ID_REQRECORD, MSG_ID_MOVE]), if_neg (by rw [h]; norm_num [MSG_ID_REQRECORD, MSG_ID_SAY]), if_pos h]

theorem decodeBody_eq_record (header : MsgHeader) (data : List Nat)
    (h : header.id = MSG_ID_RECORD) :
    decodeBody header data = MsgRecord.fromBytes header data := by
  rw [decodeBody, if_neg (by rw [h]; norm_num [MSG_ID_RECORD, MSG_ID_NOP]), if_neg (by rw [h]; norm_num [MSG_ID_RECORD, MSG_ID_RESULT]), if_neg (by rw [h]; norm_num [MSG_ID_RECORD, MSG_ID_PING]), if_neg (by rw [h]; norm_num [MSG_ID_RECORD, MSG_ID_PONG]), if_neg (by rw [h]; norm_num [MSG_ID_RECORD, MSG_ID_JOIN]), if_neg (by rw [h]; norm_num [MSG_ID_RECORD, MSG_ID_LEAVE]), if_neg (by rw [h]; norm_num [MSG_ID_RECORD, MSG_ID_RESET]), if_neg (by rw [h]; norm_num [MSG_ID_RECORD, MSG_ID_REQROOMLIST]), if_neg (by rw [h]; norm_num [MSG_ID_RECORD, MSG_ID_ROOMLIST]), if_neg (by rw [h]; norm_num [MSG_ID_RECORD, MSG_ID_REQPLAYERLIST]), if_neg (by rw [h]; norm_num [MSG_ID_RECORD, MSG_ID_PLAYERLIST]), if_neg (by rw [h]; norm_num [MSG_ID_RECORD, MSG_ID_REQGAMESTATE]), if_neg (by rw [h]; norm_num [MSG_ID_RECORD, MSG_ID_GAMESTATE]), if_neg (by rw [h]; norm_num [MSG_ID_RECORD, MSG_ID_MOVE]), if_neg (by rw [h]; norm_num [MSG_ID_RECORD, MSG_ID_SAY]), if_neg (by rw [h]; norm_num [MSG_ID_RECORD, MSG_ID_REQRECORD]), if_pos h]

/-- The round-trip property of the codec: decoding an admissible message's
encoding succeeds, reproduces the message, and consumes exactly the
statically known size of its type. -/
theorem message_roundtrip (m : Msg) (h : m.Adm) :
    message_from_bytes m.toBytes = .ok (msgSize m.body, some m) := by
  have hwf := Msg.header_WF m h
  have hlen := msgBytesLength m h
  have hb1 := (msgSize_bounds m.body).1
  obtain ⟨hmagic, hsize, hid, hseq, hres, hbadm⟩ := h
  rw [message_from_bytes, if_neg (by omega)]
  have hsplit : m.toBytes = m.header.toBytes ++ m.body.toBytes := rfl
  rw [hsplit]
  simp only [MsgHeader.fromBytes_toBytes m.header hwf]
  rw [if_neg (by rw [← hsplit, hlen, hsize]; omega)]
  rw [List.drop_left' (msgHeaderBytesLength m.header hres)]
  have heta : (⟨m.header, m.body⟩ : Msg) = m := rfl
  cases hb : m.body with
  | nop =>
    rw [hb] at heta
    simp only [hb, decodeBody_eq_nop m.header _ (by rw [hid, hb]; rfl),
      trivialFromBytes, hsize, heta]
  | result irt code mlen msg =>
    rw [hb] at hbadm heta
    simp only [hb, decodeBody_eq_result m.header _ (by rw [hid, hb]; rfl),
      decode_result m.header irt code mlen msg hbadm, hsize, heta]
  | ping =>
    rw [hb] at heta
    simp only [hb, decodeBody_eq_ping m.header _ (by rw [hid, hb]; rfl),
      trivialFromBytes, hsize, heta]
  | pong =>
    rw [hb] at heta
    simp only [hb, decodeBody_eq_pong m.header _ (by rw [hid, hb]; rfl),
      trivialFromBytes, hsize, heta]
  | join rlen rname plen pname pmode =>
    rw [hb] at hbadm heta
    simp only [hb, decodeBody_eq_join m.header _ (by rw [hid, hb]; rfl),
      decode_join m.header rlen plen pmode rname pname hbadm, hsize, heta]
  | leave =>
    rw [hb] at heta
    simp only [hb, decodeBody_eq_leave m.header _ (by rw [hid, hb]; rfl),
      trivialFromBytes, hsize, heta]
  | reset =>
    rw [hb] at heta
    simp only [hb, decodeBody_eq_reset m.header _ (by rw [hid, hb]; rfl),
      trivialFromBytes, hsize, heta]
  | reqRoomList =>
    rw [hb] at heta
    simp only [hb, decodeBody_eq_reqRoomList m.header _ (by rw [hid, hb]; rfl),
      trivialFromBytes, hsize, heta]
  | roomList tc idx rlen rname =>
    rw [hb] at hbadm heta
    simp only [hb, decodeBody_eq_roomList m.header _ (by rw [hid, hb]; rfl),
      decode_roomList m.header tc idx rlen rname hbadm, hsize, heta]
  | reqPlayerList =>
    rw [hb] at heta
    simp only [hb, decodeBody_eq_reqPlayerList m.header _ (by rw [hid, hb]; rfl),
      trivialFromBytes, hsize, heta]
  | playerList tc idx plen pname pmode =>
    rw [hb] at hbadm heta
    simp only [hb, decodeBody_eq_playerList m.header _ (by rw [hid, hb]; rfl),
      decode_playerList m.header tc idx plen pmode pname hbadm, hsize, heta]
  | reqGameState =>
    rw [hb] at heta
    simp only [hb, decodeBody_eq_reqGameState m.header _ (by rw [hid, hb]; rfl),
      trivialFromBytes, hsize, heta]
  | gameState fs ms mx my t =>
    rw [hb] at hbadm heta
    simp only [hb, decodeBody_eq_gameState m.header _ (by rw [hid, hb]; rfl),
      decode_gameState m.header fs ms mx my t hbadm, hsize, heta]
  | move a t x y =>
    rw [hb] at hbadm heta
    simp only [hb, decodeBody_eq_move m.header _ (by rw [hid, hb]; rfl),
      decode_move m.header a t x y hbadm, hsize, heta]
  | say plen pname mlen msg =>
    rw [hb] at hbadm heta
    simp only [hb, decodeBody_eq_say m.header _ (by rw [hid, hb]; rfl),
      decode_say m.header plen mlen pname msg hbadm, hsize, heta]
  | reqRecord =>
    rw [hb] at heta
    simp only [hb, decodeBody_eq_reqRecord m.header _ (by rw [hid, hb]; rfl),
      trivialFromBytes, hsize, heta]
  | record tc idx rlen rec =>
    rw [hb] at hbadm heta
    simp only [hb, decodeBody_eq_record m.header _ (by rw [hid, hb]; rfl),
      decode_record m.header tc idx rlen rec hbadm, hsize, heta]

/-! ## Characterization of the resynchronization scan -/

theorem netSyncLoop_eq_some_iff (data : List Nat) (n : Nat) : ∀ (s k : Nat),
    netSyncLoop data s n = some k ↔
      s ≤ k ∧ k < s + n ∧ fromNet32 (data.drop k) = some MSG_MAGIC ∧
        ∀ j, s ≤ j → j < k → fromNet32 (data.drop j) ≠ some MSG_MAGIC := by
  induction n with
  | zero =>
    intro s k
    constructor
    · intro h; exact absurd h (by simp [netSyncLoop])
    · rintro ⟨h1, h2, -⟩; omega
  | succ n ih =>
    intro s k
    rw [netSyncLoop]
    by_cases hp : fromNet32 (data.drop s) = some MSG_MAGIC
    · rw [if_pos hp]
      constructor
      · intro h
        have hk : s = k := by injection h
        subst hk
        exact ⟨le_refl s, by omega, hp, fun j hj hjk => by omega⟩
      · rintro ⟨h1, h2, h3, h4⟩
        have hk : s = k := by
          by_contra hne
          exact h4 s (le_refl s) (by omega) hp
        rw [hk]
    · rw [if_neg hp, ih (s + 1) k]
      constructor
      · rintro ⟨h1, h2, h3, h4⟩
        refine ⟨by omega, by omega, h3, fun j hj hjk => ?_⟩
        rcases Nat.eq_or_lt_of_le hj with hj' | hj'
        · rw [← hj']; exact hp
        · exact h4 j hj' hjk
      · rintro ⟨h1, h2, h3, h4⟩
        have hsk : s ≠ k := fun he => hp (he ▸ h3)
        exact ⟨by omega, by omega, h3, fun j hj hjk => h4 j (by omega) hjk⟩

/-- What `net_sync` actually computes: the first offset strictly below
`len - 4` whose window holds the magic word.  Note the scan never reaches
offset `len - 4` itself. -/
theorem net_sync_eq_some_iff (data : List Nat) (k : Nat) (h4 : 4 ≤ data.length) :
    net_sync data = some k ↔
      k + 4 < data.length ∧ fromNet32 (data.drop k) = some MSG_MAGIC ∧
        ∀ j < k, fromNet32 (data.drop j) ≠ some MSG_MAGIC := by
  rw [net_sync, if_pos h4, netSyncLoop_eq_some_iff]
  constructor
  · rintro ⟨-, h2, h3, h5⟩
    exact ⟨by omega, h3, fun j hj => h5 j (Nat.zero_le j) hj⟩
  · rintro ⟨h2, h3, h5⟩
    exact ⟨Nat.zero_le k, by omega, h3, fun j _ hj => h5 j hj⟩

theorem net_sync_eq_none_iff (data : List Nat) (h4 : 4 ≤ data.length) :
    net_sync data = none ↔
      ∀ k, k + 4 < data.length → fromNet32 (data.drop k) ≠ some MSG_MAGIC := by
  constructor
  · intro h k hk hmag
    by_cases hall : ∀ j < k, fromNet32 (data.drop j) ≠ some MSG_MAGIC
    · rw [(net_sync_eq_some_iff data k h4).2 ⟨hk, hmag, hall⟩] at h
      exact Option.noConfusion h
    · push_neg at hall
      obtain ⟨j, hjk, hj⟩ := hall
      -- take the least such offset
      obtain ⟨j0, ⟨hj0lt, hj0⟩, hmin⟩ := Nat.lt_wfRel.wf.has_min
        {j | j < k ∧ fromNet32 (data.drop j) = some MSG_MAGIC} ⟨j, hjk, hj⟩
      have : net_sync data = some j0 := by
        refine (net_sync_eq_some_iff data j0 h4).2 ⟨by omega, hj0, ?_⟩
        intro i hi hmag2
        exact hmin i ⟨by omega, hmag2⟩ hi
      rw [this] at h
      exact Option.noConfusion h
  · intro h
    cases hs : net_sync data with
    | none => rfl
    | some k =>
      obtain ⟨hk, hmag, -⟩ := (net_sync_eq_some_iff data k h4).1 hs
      exact absurd hmag (h k hk)

/-! ## Header decoding error characterization -/

theorem msgHeader_fromBytes_error_iff (data : List Nat) (magic size : Nat)
    (h32 : MSG_HEADER_SIZE ≤ data.length)
    (hm : fromNet32 data = some magic)
    (hs : fromNet32 (data.drop 4) = some size) :
    (∃ e, MsgHeader.fromBytes data = .error e) ↔
      magic ≠ MSG_MAGIC ∨ size < MSG_HEADER_SIZE ∨ MSG_BUFFER_SIZE < size := by
  obtain ⟨i, hi⟩ := fromNet32_isSome_of_length ((data.drop 4).drop 4)
    (by simp only [List.length_drop]; simp [MSG_HEADER_SIZE] at h32; omega)
  obtain ⟨q, hq⟩ := fromNet32_isSome_of_length (((data.drop 4).drop 4).drop 4)
    (by simp only [List.length_drop]; simp [MSG_HEADER_SIZE] at h32; omega)
  rw [MsgHeader.fromBytes, if_pos h32]
  simp only [hm, hs, hi, hq]
  by_cases h1 : magic = MSG_MAGIC
  · rw [if_neg (by simp [h1])]
    by_cases h2 : size < MSG_HEADER_SIZE
    · rw [if_pos h2]; simp [h1, h2]
    · rw [if_neg h2]
      by_cases h3 : MSG_BUFFER_SIZE < size
      · rw [if_pos h3]; simp [h1, h2, h3]
      · rw [if_neg h3]; simp [h1, h2, h3]
  · rw [if_pos (by simp [h1])]; simp [h1]

theorem message_from_bytes_incomplete (data : List Nat)
    (h : data.length < MSG_HEADER_SIZE) :
    message_from_bytes data = .ok (0, none) := by
  rw [message_from_bytes, if_pos h]

/-! ## Resynchronization across a garbage prefix -/

theorem toNet32_magic : toNet32 MSG_MAGIC = [170, 14, 31, 55] := by
  norm_num [toNet32, MSG_MAGIC]

/-- The magic word is not self-overlapping: a window that takes its last
bytes from the start of an encoded message (which begins with the magic
word) and its first bytes from the garbage tail cannot itself be the magic
word, because no proper suffix of the garbage window can align `0xAA`. -/
theorem no_magic_straddle (gs rest : List Nat) (hlen : gs.length ≤ 3)
    (hlen0 : gs.length ≠ 0) (hb : ∀ b ∈ gs, b < 256) :
    fromNet32 (gs ++ (170 :: 14 :: 31 :: 55 :: rest)) ≠ some MSG_MAGIC := by
  match gs, hlen, hlen0 with
  | [a], _, _ =>
    intro h
    simp only [List.cons_append, List.nil_append, fromNet32, MSG_MAGIC,
      Option.some.injEq] at h
    have := hb a (by simp)
    omega
  | [a, b], _, _ =>
    intro h
    simp only [List.cons_append, List.nil_append, fromNet32, MSG_MAGIC,
      Option.some.injEq] at h
    have ha := hb a (by simp)
    have hbb := hb b (by simp)
    omega
  | [a, b, c], _, _ =>
    intro h
    simp only [List.cons_append, List.nil_append, fromNet32, MSG_MAGIC,
      Option.some.injEq] at h
    have ha := hb a (by simp)
    have hbb := hb b (by simp)
    have hc := hb c (by simp)
    omega

theorem Msg.toBytes_head_magic (m : Msg) (h : m.Adm) :
    ∃ r, m.toBytes = 170 :: 14 :: 31 :: 55 :: r := by
  refine ⟨(toNet32 m.header.size ++ toNet32 m.header.id ++
    toNet32 m.header.sequence ++ (m.header.reserved.map toNet32).flatten) ++
      m.body.toBytes, ?_⟩
  have : m.toBytes = m.header.toBytes ++ m.body.toBytes := rfl
  rw [this, MsgHeader.toBytes]
  rw [show toNet32 m.header.magic = [170, 14, 31, 55] by rw [h.1, toNet32_magic]]
  simp

theorem resync_after_garbage (garbage : List Nat) (m : Msg)
    (hb : ∀ b ∈ garbage, b < 256)
    (hg : ∀ k < garbage.length, fromNet32 (garbage.drop k) ≠ some MSG_MAGIC)
    (hm : m.Adm) :
    net_sync (garbage ++ m.toBytes) = some garbage.length := by
  have hsize := msgBytesLength m hm
  have hb1 := (msgSize_bounds m.body).1
  have hlenB : MSG_HEADER_SIZE ≤ m.toBytes.length := by omega
  obtain ⟨r, hr⟩ := Msg.toBytes_head_magic m hm
  have hlen : (garbage ++ m.toBytes).length = garbage.length + m.toBytes.length :=
    List.length_append _ _
  refine (net_sync_eq_some_iff _ _ ?_).2 ⟨?_, ?_, ?_⟩
  · simp only [hlen]; norm_num [MSG_HEADER_SIZE] at hlenB ⊢; omega
  · simp only [hlen]; norm_num [MSG_HEADER_SIZE] at hlenB ⊢; omega
  · rw [List.drop_left, hr]
    norm_num [fromNet32, MSG_MAGIC]
  · intro j hj
    have hdrop : (garbage ++ m.toBytes).drop j = garbage.drop j ++ m.toBytes := by
      rw [List.drop_append_eq_append_drop, Nat.sub_eq_zero_of_le (le_of_lt hj),
        List.drop_zero]
    rw [hdrop]
    by_cases hcase : j + 4 ≤ garbage.length
    · rw [fromNet32_append_left _ _ (by simp only [List.length_drop]; omega)]
      exact hg j hj
    · rw [hr]
      exact no_magic_straddle _ _ (by simp only [List.length_drop]; omega)
        (by simp only [List.length_drop]; omega)
        (fun b hbm => hb b (List.drop_subset _ _ hbm))

/-! ## Claim C3: codec round-trip -/

/-- C3: for every message of every type with admissible field values
(including boundary string lengths), decoding the encoding succeeds, yields
a message with identical fields, and reports a consumed byte count equal to
the encoding's length, which is the statically known size of the type. -/
theorem C3_roundtrip (m : Msg) (h : m.Adm) :
    message_from_bytes m.toBytes = .ok (m.toBytes.length, some m) ∧
      m.toBytes.length = msgSize m.body := by
  have h1 := message_roundtrip m h
  have h2 := msgBytesLength m h
  rw [h2]
  exact ⟨h1, rfl⟩

def mJoinBoundary : Msg :=
  ⟨MsgHeader.new MSG_MAGIC MSG_JOIN_SIZE MSG_ID_JOIN 7,
    .join 0 (List.replicate 64 0) 64 (List.replicate 64 65) 1⟩

theorem C3_roundtrip_witness :
    mJoinBoundary.Adm ∧
      (message_from_bytes mJoinBoundary.toBytes =
          .ok (mJoinBoundary.toBytes.length, some mJoinBoundary) ∧
        mJoinBoundary.toBytes.length = msgSize mJoinBoundary.body) :=
  ⟨by decide, C3_roundtrip mJoinBoundary (by decide)⟩

/-! ## Claim C6: incomplete data vs. protocol error -/

/-- C6: with fewer than 32 bytes, decoding reports incomplete data (no
message, zero consumed) rather than failing; with at least 32 bytes, header
decoding fails iff the magic mismatches, the size field is below the header
size, or above the maximum buffer size. -/
theorem C6_header_decode (data : List Nat) :
    (data.length < MSG_HEADER_SIZE → message_from_bytes data = .ok (0, none)) ∧
    (∀ magic size, MSG_HEADER_SIZE ≤ data.length →
      fromNet32 data = some magic → fromNet32 (data.drop 4) = some size →
      ((∃ e, MsgHeader.fromBytes data = .error e) ↔
        magic ≠ MSG_MAGIC ∨ size < MSG_HEADER_SIZE ∨ MSG_BUFFER_SIZE < size)) := by
  constructor
  · exact message_from_bytes_incomplete data
  · intro magic size h32 hm hs
    exact msgHeader_fromBytes_error_iff data magic size h32 hm hs

theorem C6_header_decode_witness :
    message_from_bytes [1, 2, 3] = .ok (0, none) ∧
      ((∃ e, MsgHeader.fromBytes
          (toNet32 MSG_MAGIC ++ toNet32 31 ++ List.replicate 24 0) = .error e) ↔
        MSG_MAGIC ≠ MSG_MAGIC ∨ (31 : Nat) < MSG_HEADER_SIZE ∨
          MSG_BUFFER_SIZE < 31) :=
  ⟨(C6_header_decode [1, 2, 3]).1 (by decide),
    (C6_header_decode (toNet32 MSG_MAGIC ++ toNet32 31 ++ List.replicate 24 0)).2
      MSG_MAGIC 31 (by decide) (by decide) (by decide)⟩

/-! ## Claim C7: resync over garbage followed by a valid message -/

/-- C7: for a garbage prefix containing the magic constant in no 4-byte
window, followed by one validly encoded message, `net_sync` returns exactly
the garbage length, and decoding at that offset consumes exactly the
encoded message's length (its header's size field, the static size). -/
theorem C7_resync_correct (garbage : List Nat) (m : Msg)
    (hb : ∀ b ∈ garbage, b < 256)
    (hg : ∀ k < garbage.length, fromNet32 (garbage.drop k) ≠ some MSG_MAGIC)
    (hm : m.Adm) :
    net_sync (garbage ++ m.toBytes) = some garbage.length ∧
      message_from_bytes ((garbage ++ m.toBytes).drop garbage.length) =
        .ok (m.header.size, some m) ∧
      m.header.size = m.toBytes.length := by
  refine ⟨resync_after_garbage garbage m hb hg hm, ?_, ?_⟩
  · rw [List.drop_left, message_roundtrip m hm, hm.2.1]
  · rw [hm.2.1, msgBytesLength m hm]

def mMoveSmall : Msg :=
  ⟨MsgHeader.new MSG_MAGIC MSG_MOVE_SIZE MSG_ID_MOVE 3, .move 0 1 2 3⟩

theorem C7_resync_correct_witness :
    net_sync ([0, 0, 0, 0, 0] ++ mMoveSmall.toBytes) = some 5 ∧
      message_from_bytes (([0, 0, 0, 0, 0] ++ mMoveSmall.toBytes).drop 5) =
        .ok (mMoveSmall.header.size, some mMoveSmall) ∧
      mMoveSmall.header.size = mMoveSmall.toBytes.length := by
  have h := C7_resync_correct [0, 0, 0, 0, 0] mMoveSmall (by decide) (by decide)
    (by decide)
  simpa using h

/-! ## Claim C8: the resync scan range -/

/-- C8 counterexample: in the 8-byte buffer whose final 4 bytes are exactly
the magic word, the claimed smallest offset is `len - 4 = 4`, yet `net_sync`
returns `none` — the loop `for skip in 0..(len - 4)` never inspects the
final window. -/
theorem C8_counterexample :
    net_sync [0, 0, 0, 0, 170, 14, 31, 55] = none ∧
      fromNet32 (List.drop 4 [0, 0, 0, 0, 170, 14, 31, 55]) = some MSG_MAGIC ∧
      List.length [0, 0, 0, 0, 170, 14, 31, 55] - 4 = 4 := by
  decide

/-- C8 amended: for a buffer of length ≥ 4, `net_sync` returns the smallest
offset `k` with `k < len - 4` (strictly: the final window at `len - 4` is
never inspected) whose 4-byte window equals the big-endian magic constant,
and `none` when the buffer is shorter than 4 bytes. -/
theorem C8_net_sync_scan (data : List Nat) (k : Nat) :
    (4 ≤ data.length →
      (net_sync data = some k ↔
        k + 4 < data.length ∧ fromNet32 (data.drop k) = some MSG_MAGIC ∧
          ∀ j < k, fromNet32 (data.drop j) ≠ some MSG_MAGIC)) ∧
    (data.length < 4 → net_sync data = none) := by
  constructor
  · intro h4
    exact net_sync_eq_some_iff data k h4
  · intro h4
    rw [net_sync, if_neg (by omega)]

theorem C8_net_sync_scan_witness :
    ((net_sync [170, 14, 31, 55, 9, 9, 9, 9] = some 0 ↔
        0 + 4 < List.length [170, 14, 31, 55, 9, 9, 9, 9] ∧
          fromNet32 (List.drop 0 [170, 14, 31, 55, 9, 9, 9, 9]) =
            some MSG_MAGIC ∧
          ∀ j < 0, fromNet32 (List.drop j [170, 14, 31, 55, 9, 9, 9, 9]) ≠
            some MSG_MAGIC) ∧
      net_sync [1, 2] = none) :=
  ⟨(C8_net_sync_scan [170, 14, 31, 55, 9, 9, 9, 9] 0).1 (by decide),
    (C8_net_sync_scan [1, 2] 0).2 (by decide)⟩

/-! ## player.rs: player modes, players, rosters -/

def MSG_PLAYERMODE_SPECTATOR : Nat := 0
def MSG_PLAYERMODE_WOLF : Nat := 1
def MSG_PLAYERMODE_SHEEP : Nat := 2
def MSG_PLAYERMODE_BOTH : Nat := 3

inductive PlayerMode where
  | spectator | both | wolf | sheep
deriving DecidableEq, Repr

/-- `num_to_player_mode`. -/
def num_to_player_mode (n : Nat) : Except String PlayerMode :=
  if n = MSG_PLAYERMODE_SPECTATOR then .ok .spectator
  else if n = MSG_PLAYERMODE_BOTH then .ok .both
  else if n = MSG_PLAYERMODE_WOLF then .ok .wolf
  else if n = MSG_PLAYERMODE_SHEEP then .ok .sheep
  else .error "Received invalid player_mode."

/-- `player_mode_to_num`. -/
def player_mode_to_num : PlayerMode → Nat
  | .spectator => MSG_PLAYERMODE_SPECTATOR
  | .both => MSG_PLAYERMODE_BOTH
  | .wolf => MSG_PLAYERMODE_WOLF
  | .sheep => MSG_PLAYERMODE_SHEEP

structure Player where
  name : String
  mode : PlayerMode
  is_self : Bool
deriving DecidableEq, Repr

structure PlayerList where
  players : List Player
deriving DecidableEq, Repr

def PlayerList.count (pl : PlayerList) : Nat := pl.players.length

/-- `find_player_by_name`: first roster entry with the given name. -/
def PlayerList.find_player_by_name (pl : PlayerList) (name : String) :
    Option Player :=
  pl.players.find? (fun p => p.name == name)

/-- `find_players_by_mode`: all roster entries with the given mode. -/
def PlayerList.find_players_by_mode (pl : PlayerList) (mode : PlayerMode) :
    List Player :=
  pl.players.filter (fun p => p.mode == mode)

/-- `add_player`: push at the end. -/
def PlayerList.add_player (pl : PlayerList) (p : Player) : PlayerList :=
  ⟨pl.players ++ [p]⟩

/-- `remove_player_by_name`: retain entries with a different name. -/
def PlayerList.remove_player_by_name (pl : PlayerList) (name : String) :
    PlayerList :=
  ⟨pl.players.filter (fun p => p.name != name)⟩

/-! ## consts.rs -/

def MAX_PLAYERS : Nat := 1024
def MAX_ROOMS : Nat := 1024 * 4

/-! ## The GameRules collaborator (§4.5)

The networking core consumes the rules engine (`game_state.rs`) opaquely:
it resets it, serializes its state, merges received state, applies moves and
reads the move record, without inspecting boards or turns.  The engine state
is therefore a type parameter `G` together with the operation record below;
all server theorems hold for every implementation of this interface. -/

structure GameOps (G : Type) where
  /-- `reset_game(force)`. -/
  resetGame : G → Bool → G
  /-- `make_state_message()`. -/
  makeStateMessage : G → Msg
  /-- `read_state_message(msg, force)`: optional error plus updated state. -/
  readStateMessage : G → MsgBody → Bool → Option String × G
  /-- `server_handle_rx_msg_move(msg)`: optional error plus updated state. -/
  handleMove : G → MsgBody → Option String × G
  /-- `get_recorder().get_moves_as_text()`. -/
  recordText : G → String
  /-- `set_player_mode(mode)` (applied by `get_game_state`). -/
  setPlayerMode : G → PlayerMode → G
  /-- `set_room_player_list(list)`. -/
  setRoomPlayerList : G → PlayerList → G

/-! ## room.rs: ServerRoom -/

structure ServerRoom (G : Type) where
  name : String
  game_state : G
  player_list : PlayerList
  restrict_player_modes : Bool
deriving DecidableEq, Repr

/-- The roster actually used by `can_add_player`'s checks: the room roster
with the optionally ignored name removed. -/
def ServerRoom.effRoster {G : Type} (r : ServerRoom G)
    (ignore_name : Option String) : PlayerList :=
  match ignore_name with
  | some ig => r.player_list.remove_player_by_name ig
  | none => r.player_list

/-- The tail of `can_add_player` after the restricted-mode checks: room
capacity, then name uniqueness. -/
def checkCountAndName (pl : PlayerList) (player_name : String) :
    Except String Unit :=
  if pl.count < MAX_PLAYERS then
    if (pl.find_player_by_name player_name).isSome then
      .error ("Player name '" ++ player_name ++ "' is already occupied.")
    else .ok ()
  else
    .error ("Player '" ++ player_name ++ "' can't join. Too many players in room.")

/-- `ServerRoom::can_add_player`: pure validation — restricted-mode policy
first (each conflict is an early return), then capacity and name checks. -/
def ServerRoom.can_add_player {G : Type} (r : ServerRoom G)
    (player_name : String) (player_mode : PlayerMode)
    (ignore_name : Option String) : Except String Unit :=
  let player_list := r.effRoster ignore_name
  if r.restrict_player_modes then
    match player_mode with
    | .spectator => checkCountAndName player_list player_name
    | .both => .error "PlayerMode::Both not supported in restricted mode."
    | .wolf =>
      if (player_list.find_players_by_mode .wolf).isEmpty then
        checkCountAndName player_list player_name
      else .error "The game already has a Wolf player."
    | .sheep =>
      if (player_list.find_players_by_mode .sheep).isEmpty then
        checkCountAndName player_list player_name
      else .error "The game already has a Sheep player."
  else checkCountAndName player_list player_name

/-- `ServerRoom::add_player`: validate (with no ignored name), then insert
and push the updated roster into the rules engine. -/
def ServerRoom.add_player {G : Type} (ops : GameOps G) (r : ServerRoom G)
    (player_name : String) (player_mode : PlayerMode) :
    Except String (ServerRoom G) :=
  match r.can_add_player player_name player_mode none with
  | .error e => .error e
  | .ok _ =>
    let pl := r.player_list.add_player ⟨player_name, player_mode, false⟩
    .ok { r with
            player_list := pl,
            game_state := ops.setRoomPlayerList r.game_state pl }

/-- `ServerRoom::remove_player`. -/
def ServerRoom.remove_player {G : Type} (ops : GameOps G) (r : ServerRoom G)
    (player_name : String) : ServerRoom G :=
  let pl := r.player_list.remove_player_by_name player_name
  { r with
      player_list := pl,
      game_state := ops.setRoomPlayerList r.game_state pl }

theorem checkCountAndName_ok_iff (pl : PlayerList) (n : String) :
    checkCountAndName pl n = .ok () ↔
      pl.count < MAX_PLAYERS ∧ pl.find_player_by_name n = none := by
  rw [checkCountAndName]
  by_cases h1 : pl.count < MAX_PLAYERS
  · rw [if_pos h1]
    by_cases h2 : (pl.find_player_by_name n).isSome
    · rw [if_pos h2]
      simp only [Option.isSome_iff_exists] at h2
      obtain ⟨p, hp⟩ := h2
      simp [h1, hp]
    · rw [if_neg h2]
      simp only [Option.not_isSome_iff_eq_none] at h2
      simp [h1, h2]
  · rw [if_neg h1]
    simp [h1]

theorem checkCountAndName_error_of_full (pl : PlayerList) (n : String)
    (h : MAX_PLAYERS ≤ pl.count) :
    ∃ e, checkCountAndName pl n = .error e := by
  rw [checkCountAndName, if_neg (by omega)]
  exact ⟨_, rfl⟩

theorem can_add_player_ok_count {G : Type} (r : ServerRoom G) (n : String)
    (m : PlayerMode) (ig : Option String)
    (h : r.can_add_player n m ig = .ok ()) :
    (r.effRoster ig).count < MAX_PLAYERS := by
  simp only [ServerRoom.can_add_player] at h
  by_cases hr : r.restrict_player_modes
  · rw [if_pos hr] at h
    cases m with
    | spectator => exact ((checkCountAndName_ok_iff _ _).1 h).1
    | both => exact Except.noConfusion h
    | wolf =>
      by_cases he : ((r.effRoster ig).find_players_by_mode .wolf).isEmpty
      · rw [if_pos he] at h
        exact ((checkCountAndName_ok_iff _ _).1 h).1
      · rw [if_neg he] at h
        exact Except.noConfusion h
    | sheep =>
      by_cases he : ((r.effRoster ig).find_players_by_mode .sheep).isEmpty
      · rw [if_pos he] at h
        exact ((checkCountAndName_ok_iff _ _).1 h).1
      · rw [if_neg he] at h
        exact Except.noConfusion h
  · rw [if_neg hr] at h
    exact ((checkCountAndName_ok_iff _ _).1 h).1

/-! ## Claim C5: join admission and restricted mode -/

def roomDefaultU : ServerRoom Unit := ⟨"default", (), ⟨[]⟩, false⟩
def roomDefaultU_A : ServerRoom Unit :=
  ⟨"default", (), ⟨[⟨"A", .wolf, false⟩]⟩, false⟩
def roomDefaultR : ServerRoom Unit := ⟨"default", (), ⟨[]⟩, true⟩
def roomDefaultR_A : ServerRoom Unit :=
  ⟨"default", (), ⟨[⟨"A", .wolf, false⟩]⟩, true⟩

/-- C5: join admission follows the restricted-mode policy.  Unrestricted
rooms allow duplicate Wolves; a restricted room rejects `Both`
unconditionally, rejects Wolf (resp. Sheep) exactly when the roster (after
removing the optionally ignored own entry) already holds that mode, and
admits a Sheep while only a Wolf is present — including the concrete §8
scenario for players "A" and "B". -/
theorem C5_join_exclusivity :
    (roomDefaultU.can_add_player "A" .wolf none = .ok () ∧
      roomDefaultU_A.can_add_player "B" .wolf none = .ok () ∧
      roomDefaultR.can_add_player "A" .wolf none = .ok () ∧
      roomDefaultR_A.can_add_player "B" .wolf none =
        .error "The game already has a Wolf player." ∧
      roomDefaultR_A.can_add_player "B" .sheep none = .ok ()) ∧
    (∀ (G : Type) (r : ServerRoom G) (n : String) (ig : Option String),
      r.restrict_player_modes = true →
        r.can_add_player n .both ig =
          .error "PlayerMode::Both not supported in restricted mode.") ∧
    (∀ (G : Type) (r : ServerRoom G) (n : String) (ig : Option String),
      r.restrict_player_modes = true →
        (((r.effRoster ig).find_players_by_mode .wolf ≠ [] →
          r.can_add_player n .wolf ig =
            .error "The game already has a Wolf player.") ∧
        ((r.effRoster ig).find_players_by_mode .wolf = [] →
          (r.effRoster ig).count < MAX_PLAYERS →
          (r.effRoster ig).find_player_by_name n = none →
          r.can_add_player n .wolf ig = .ok ()))) ∧
    (∀ (G : Type) (r : ServerRoom G) (n : String) (ig : Option String),
      r.restrict_player_modes = true →
        (((r.effRoster ig).find_players_by_mode .sheep ≠ [] →
          r.can_add_player n .sheep ig =
            .error "The game already has a Sheep player.") ∧
        ((r.effRoster ig).find_players_by_mode .sheep = [] →
          (r.effRoster ig).count < MAX_PLAYERS →
          (r.effRoster ig).find_player_by_name n = none →
          r.can_add_player n .sheep ig = .ok ()))) ∧
    (∀ (G : Type) (r : ServerRoom G) (n : String) (ig : Option String),
      r.restrict_player_modes = false →
        (r.effRoster ig).count < MAX_PLAYERS →
        (r.effRoster ig).find_player_by_name n = none →
        ∀ m : PlayerMode, r.can_add_player n m ig = .ok ()) := by
  refine ⟨by decide, ?_, ?_, ?_, ?_⟩
  · intro G r n ig hr
    simp only [ServerRoom.can_add_player]
    rw [if_pos hr]
  · intro G r n ig hr
    constructor
    · intro hne
      simp only [ServerRoom.can_add_player]
      rw [if_pos hr]
      rw [if_neg (by simp [List.isEmpty_iff, hne])]
    · intro hemp hcount hname
      simp only [ServerRoom.can_add_player]
      rw [if_pos hr]
      rw [if_pos (by simp [List.isEmpty_iff, hemp])]
      exact (checkCountAndName_ok_iff _ _).2 ⟨hcount, hname⟩
  · intro G r n ig hr
    constructor
    · intro hne
      simp only [ServerRoom.can_add_player]
      rw [if_pos hr]
      rw [if_neg (by simp [List.isEmpty_iff, hne])]
    · intro hemp hcount hname
      simp only [ServerRoom.can_add_player]
      rw [if_pos hr]
      rw [if_pos (by simp [List.isEmpty_iff, hemp])]
      exact (checkCountAndName_ok_iff _ _).2 ⟨hcount, hname⟩
  · intro G r n ig hr hcount hname m
    simp only [ServerRoom.can_add_player]
    rw [if_neg (by simp [hr])]
    exact (checkCountAndName_ok_iff _ _).2 ⟨hcount, hname⟩

theorem C5_join_exclusivity_witness :
    roomDefaultR_A.can_add_player "B" .both none =
      .error "PlayerMode::Both not supported in restricted mode." ∧
    roomDefaultR_A.can_add_player "B" .wolf none =
      .error "The game already has a Wolf player." ∧
    roomDefaultR_A.can_add_player "B" .sheep none = .ok () ∧
    roomDefaultU_A.can_add_player "B" .wolf none = .ok () :=
  ⟨C5_join_exclusivity.2.1 Unit roomDefaultR_A "B" none rfl,
    (C5_join_exclusivity.2.2.1 Unit roomDefaultR_A "B" none rfl).1 (by decide),
    (C5_join_exclusivity.2.2.2.1 Unit roomDefaultR_A "B" none rfl).2 (by decide)
      (by decide) (by decide),
    C5_join_exclusivity.2.2.2.2 Unit roomDefaultU_A "B" none rfl (by decide)
      (by decide) .wolf⟩

/-! ## Claim C10: roster capacity bound -/

/-- C10: a roster never exceeds `MAX_PLAYERS` (1024): `can_add_player`
errors whenever the checked roster already holds 1024 entries, and
`add_player` re-validates before inserting, so a successful insertion
starts from a roster strictly below the cap and ends at most at the cap. -/
theorem C10_max_players :
    (∀ (G : Type) (r : ServerRoom G) (n : String) (m : PlayerMode)
        (ig : Option String),
      MAX_PLAYERS ≤ (r.effRoster ig).count →
        ∃ e, r.can_add_player n m ig = .error e) ∧
    (∀ (G : Type) (ops : GameOps G) (r r' : ServerRoom G) (n : String)
        (m : PlayerMode),
      r.add_player ops n m = .ok r' →
        r.player_list.count < MAX_PLAYERS ∧
        r'.player_list.count = r.player_list.count + 1 ∧
        r'.player_list.count ≤ MAX_PLAYERS) := by
  constructor
  · intro G r n m ig hfull
    simp only [ServerRoom.can_add_player]
    by_cases hr : r.restrict_player_modes
    · rw [if_pos hr]
      cases m with
      | spectator => exact checkCountAndName_error_of_full _ _ hfull
      | both => exact ⟨_, rfl⟩
      | wolf =>
        by_cases he : ((r.effRoster ig).find_players_by_mode .wolf).isEmpty
        · rw [if_pos he]
          exact checkCountAndName_error_of_full _ _ hfull
        · rw [if_neg he]
          exact ⟨_, rfl⟩
      | sheep =>
        by_cases he : ((r.effRoster ig).find_players_by_mode .sheep).isEmpty
        · rw [if_pos he]
          exact checkCountAndName_error_of_full _ _ hfull
        · rw [if_neg he]
          exact ⟨_, rfl⟩
    · rw [if_neg hr]
      exact checkCountAndName_error_of_full _ _ hfull
  · intro G ops r r' n m h
    rw [ServerRoom.add_player] at h
    cases hc : r.can_add_player n m none with
    | error e => rw [hc] at h; exact Except.noConfusion h
    | ok u =>
      rw [hc] at h
      have hcount : r.player_list.count < MAX_PLAYERS :=
        can_add_player_ok_count r n m none (by rw [hc])
      have hr' : r' = { r with
          player_list := r.player_list.add_player ⟨n, m, false⟩,
          game_state := ops.setRoomPlayerList r.game_state
            (r.player_list.add_player ⟨n, m, false⟩) } := by
        injection h with h'
        exact h'.symm
      refine ⟨hcount, ?_, ?_⟩
      · rw [hr']
        simp [PlayerList.count, PlayerList.add_player]
      · rw [hr']
        simp only [PlayerList.count, PlayerList.add_player, List.length_append,
          List.length_cons, List.length_nil]
        simp only [PlayerList.count] at hcount
        omega

def opsUnit : GameOps Unit :=
  ⟨fun g _ => g,
    fun _ => ⟨MsgHeader.new MSG_MAGIC MSG_HEADER_SIZE MSG_ID_NOP 0, .nop⟩,
    fun g _ _ => (none, g), fun g _ => (none, g), fun _ => "",
    fun g _ => g, fun g _ => g⟩

def roomFull : ServerRoom Unit :=
  ⟨"full", (), ⟨List.replicate 1024 ⟨"p", .spectator, false⟩⟩, false⟩

set_option maxRecDepth 4000 in
theorem C10_max_players_witness :
    (∃ e, roomFull.can_add_player "q" .wolf none = .error e) ∧
    (roomDefaultU.player_list.count < MAX_PLAYERS ∧
      roomDefaultU_A.player_list.count = roomDefaultU.player_list.count + 1 ∧
      roomDefaultU_A.player_list.count ≤ MAX_PLAYERS) :=
  ⟨C10_max_players.1 Unit roomFull "q" .wolf none
      (by simp [roomFull, ServerRoom.effRoster, PlayerList.count, MAX_PLAYERS]),
    C10_max_players.2 Unit opsUnit roomDefaultU roomDefaultU_A "A" .wolf
      (by decide)⟩

/-! ## server.rs: the per-connection handler

The connection's mutable state (`ServerInstance`) is `ConnState`; socket
writes become the returned list of sent messages (`send_msg` stamps the
per-connection sequence counter into the header and increments it,
wrapping), and multicast sends become the returned list of packets.  The
room map (`HashMap<String, ServerRoom>` behind the mutex) is an association
list with unique keys. -/

structure ConnState where
  sequence : Nat
  joined_room : Option String
  player_name : Option String
  player_mode : PlayerMode
deriving DecidableEq, Repr

/-- UTF-8 encoding of one character. -/
def utf8EncodeCharNat (c : Char) : List Nat :=
  let n := c.toNat
  if n < 0x80 then [n]
  else if n < 0x800 then
    [0xC0 ||| (n >>> 6), 0x80 ||| (n &&& 0x3F)]
  else if n < 0x10000 then
    [0xE0 ||| (n >>> 12), 0x80 ||| ((n >>> 6) &&& 0x3F), 0x80 ||| (n &&& 0x3F)]
  else
    [0xF0 ||| (n >>> 18), 0x80 ||| ((n >>> 12) &&& 0x3F),
      0x80 ||| ((n >>> 6) &&& 0x3F), 0x80 ||| (n &&& 0x3F)]

/-- UTF-8 bytes of a string (`str::as_bytes`). -/
def strToBytes (s : String) : List Nat :=
  (s.data.map utf8EncodeCharNat).flatten

/-- `str::to_net` into a fixed-capacity zeroed buffer; returns the number
of bytes written (which the message constructors store as the length field)
and the full `cap`-byte buffer. -/
def strToNetBuf (cap : Nat) (truncate : Bool) (s : String) :
    Except String (Nat × List Nat) :=
  let bs := strToBytes s
  if cap < bs.length then
    if truncate then .ok (cap, bs.take cap)
    else .error "to_net str: String is too long."
  else .ok (bs.length, bs ++ List.replicate (cap - bs.length) 0)

/-- `String::from_net` (strict): the `len`-byte prefix of the buffer, with
trailing zero bytes stripped, decoded as UTF-8. -/
def strFromNet (buf : List Nat) (len : Nat) : Except String String :=
  let bs := (((buf.take len).reverse.dropWhile (fun b => b == 0)).reverse)
  match String.fromUTF8? (ByteArray.mk ((bs.map (fun b => b.toUInt8)).toArray)) with
  | some s => .ok s
  | none => .error "from_net str: invalid UTF-8."

/-- `MsgHeader::set_sequence` on a whole message. -/
def Msg.setSequence (m : Msg) (s : Nat) : Msg :=
  ⟨{ m.header with sequence := s }, m.body⟩

/-- `send_msg`: stamp the connection's sequence number into the header,
emit the message, and advance the (wrapping) counter. -/
def sendMsg (st : ConnState) (m : Msg) : ConnState × Msg :=
  ({ st with sequence := (st.sequence + 1) % 2 ^ 32 }, m.setSequence st.sequence)

def sendMsgs (st : ConnState) (ms : List Msg) : ConnState × List Msg :=
  ms.foldl (fun acc m =>
    let r := sendMsg acc.1 m
    (r.1, acc.2 ++ [r.2])) (st, [])

/-- `MsgResult::new`: header via `MsgHeader::new`, the replied-to message's
header embedded verbatim, text truncated to the 512-byte cap. -/
def msgResultNew (inReplyTo : Msg) (resultCode : Nat) (text : String) : Msg :=
  let lb := match strToNetBuf MSG_RESULT_MAXMSGLEN true text with
    | .ok lb => lb
    | .error _ => (0, List.replicate MSG_RESULT_MAXMSGLEN 0)
  ⟨MsgHeader.new MSG_MAGIC MSG_RESULT_SIZE MSG_ID_RESULT 0,
    .result inReplyTo.header resultCode lb.1 lb.2⟩

def msgPongNew : Msg :=
  ⟨MsgHeader.new MSG_MAGIC MSG_HEADER_SIZE MSG_ID_PONG 0, .pong⟩

/-- `MsgPlayerList::new`. -/
def msgPlayerListNew (total idx : Nat) (name : String) (mode : Nat) :
    Except String Msg :=
  match strToNetBuf MSG_MAXPLAYERNAME false name with
  | .error e => .error e
  | .ok lb =>
    .ok ⟨MsgHeader.new MSG_MAGIC MSG_PLAYER_LIST_SIZE MSG_ID_PLAYERLIST 0,
      .playerList total idx lb.1 lb.2 mode⟩

/-- `MsgRoomList::new`. -/
def msgRoomListNew (total idx : Nat) (name : String) : Except String Msg :=
  match strToNetBuf MSG_MAXROOMNAME false name with
  | .error e => .error e
  | .ok lb =>
    .ok ⟨MsgHeader.new MSG_MAGIC MSG_ROOM_LIST_SIZE MSG_ID_ROOMLIST 0,
      .roomList total idx lb.1 lb.2⟩

/-- `MsgRecord::new`: the move record split into 512-byte chunks with
total/index framing. -/
def msgRecordNew (record : String) : List Msg :=
  let bs := strToBytes record
  let total := (bs.length + MSG_MAXRECORDLEN - 1) / MSG_MAXRECORDLEN
  (List.range total).map (fun i =>
    let len := min (bs.length - i * MSG_MAXRECORDLEN) MSG_MAXRECORDLEN
    let chunk := (bs.drop (i * MSG_MAXRECORDLEN)).take len ++
      List.replicate (MSG_MAXRECORDLEN - len) 0
    ⟨MsgHeader.new MSG_MAGIC MSG_RECORD_SIZE MSG_ID_RECORD 0,
      .record total i len chunk⟩)

/-- `MsgSay::set_player_name` (truncating). -/
def setSayPlayerName (m : Msg) (name : String) : Msg :=
  match m.body with
  | .say _plen _pname mlen text =>
    match strToNetBuf MSG_MAXPLAYERNAME true name with
    | .ok lb => ⟨m.header, .say lb.1 lb.2 mlen text⟩
    | .error _ => m
  | _ => m

/-! ## multicast.rs: packets and the router -/

inductive MulticastSync where
  | noSync | toRouter
deriving DecidableEq, Repr

structure MulticastPacket where
  data : List Nat
  meta_data : List Nat
  include_self : Bool
  sync : MulticastSync
deriving DecidableEq, Repr

/-- `ServerInstance::send_broadcast`: the packet's room tag is the room
name's bytes, or empty for a global broadcast. -/
def mkBroadcast (m : Msg) (room : Option String) (include_self : Bool)
    (sync : MulticastSync) : MulticastPacket :=
  ⟨m.toBytes,
    match room with
    | some rn => strToBytes rn
    | none => [],
    include_self, sync⟩

/-- One registered subscriber as the router sees it: its pending
subscriber-to-router queue, its router-to-subscriber inbox, and the
liveness flag. -/
structure RouterSub where
  fromSubQueue : List MulticastPacket
  toSubQueue : List MulticastPacket
  killed : Bool
deriving DecidableEq, Repr

/-- One iteration of the router's per-subscriber body: `try_recv` one
pending packet from subscriber `i` and forward a copy to every subscriber,
itself included only when `include_self`. -/
def routeOne (subs : List RouterSub) (i : Nat) : List RouterSub :=
  match subs.get? i with
  | none => subs
  | some sub =>
    match sub.fromSubQueue with
    | [] => subs
    | pack :: restQ =>
      let subs1 := subs.set i { sub with fromSubQueue := restQ }
      subs1.mapIdx (fun j s =>
        if j ≠ i ∨ pack.include_self then
          { s with toSubQueue := s.toSubQueue ++ [pack] }
        else s)

/-- `MulticastRouter::run_router`: prune killed subscribers, then route one
pending packet of each subscriber in order. -/
def run_router (subs : List RouterSub) : List RouterSub :=
  let live := subs.filter (fun s => !s.killed)
  (List.range live.length).foldl routeOne live

/-! ## The room map -/

def RoomMap (G : Type) : Type := List (String × ServerRoom G)

/-- `rooms.get(name)`. -/
def lookupRoom {G : Type} (rooms : RoomMap G) (name : String) :
    Option (ServerRoom G) :=
  match List.find? (fun e => e.1 == name) rooms with
  | some e => some e.2
  | none => none

/-- `rooms.get_mut(name)` followed by in-place mutation. -/
def updateRoom {G : Type} (rooms : RoomMap G) (name : String)
    (f : ServerRoom G → ServerRoom G) : RoomMap G :=
  List.map (fun e => if e.1 == name then (e.1, f e.2) else e) rooms

/-! ## Roster and room list replies -/

/-- Stable name-ordered roster (`player_list.iter().sorted()`; `Player`'s
order is by name, names being unique within a roster). -/
def insertPlayer (p : Player) : List Player → List Player
  | [] => [p]
  | q :: qs => if p.name ≤ q.name then p :: q :: qs else q :: insertPlayer p qs

def sortPlayers : List Player → List Player
  | [] => []
  | p :: ps => insertPlayer p (sortPlayers ps)

def insertName (s : String) : List String → List String
  | [] => [s]
  | q :: qs => if s ≤ q then s :: q :: qs else q :: insertName s qs

def sortNames : List String → List String
  | [] => []
  | s :: ss => insertName s (sortNames ss)

def genPlayerMsgs (total : Nat) : Nat → List Player → Except String (List Msg)
  | _, [] => .ok []
  | idx, p :: ps =>
    match msgPlayerListNew total idx p.name (player_mode_to_num p.mode) with
    | .error e => .error e
    | .ok m =>
      match genPlayerMsgs total (idx + 1) ps with
      | .error e => .error e
      | .ok ms => .ok (m :: ms)

/-- `gen_player_list_msgs`: one `PlayerList` message per sorted roster
entry, with total/index framing. -/
def gen_player_list_msgs {G : Type} (room : ServerRoom G) :
    Except String (List Msg) :=
  genPlayerMsgs room.player_list.count 0 (sortPlayers room.player_list.players)

def genRoomMsgs (total : Nat) : Nat → List String → Except String (List Msg)
  | _, [] => .ok []
  | idx, s :: ss =>
    match msgRoomListNew total idx s with
    | .error e => .error e
    | .ok m =>
      match genRoomMsgs total (idx + 1) ss with
      | .error e => .error e
      | .ok ms => .ok (m :: ms)

/-- `gen_room_list_msgs`: one `RoomList` message per sorted room name. -/
def gen_room_list_msgs {G : Type} (rooms : RoomMap G) :
    Except String (List Msg) :=
  let names := sortNames (rooms.map (fun e => e.2.name))
  genRoomMsgs names.length 0 names

/-- `broadcast_player_list`: the sorted roster as broadcast packets; with
`include_self` false the send is router-synchronized. -/
def broadcast_player_list {G : Type} (room : ServerRoom G)
    (include_self : Bool) : Except String (List MulticastPacket) :=
  match gen_player_list_msgs room with
  | .error e => .error e
  | .ok msgs =>
    .ok (msgs.map (fun m => mkBroadcast m (some room.name) include_self
      (if include_self then .noSync else .toRouter)))

/-- `broadcast_game_state`: serialize the rules engine's state (after
`get_game_state` re-binds the caller's mode) and broadcast it to the room,
self included. -/
def broadcast_game_state {G : Type} (ops : GameOps G) (st : ConnState)
    (room : ServerRoom G) : ServerRoom G × MulticastPacket :=
  let gs := ops.setPlayerMode room.game_state st.player_mode
  let m := ops.makeStateMessage gs
  ({ room with game_state := gs }, mkBroadcast m (some room.name) true .noSync)

/-! ## Leave / join -/

/-- The `do_leave!` macro: if a player name is set, remove it from the
joined room's roster (when that room exists), rebroadcast the roster
(failures logged and ignored), clear the name and joined room, reset the
mode to spectator. -/
def doLeave {G : Type} (ops : GameOps G) (rooms : RoomMap G) (st : ConnState) :
    RoomMap G × ConnState × List MulticastPacket :=
  match st.player_name with
  | none => (rooms, st, [])
  | some pn =>
    match st.joined_room with
    | none =>
      (rooms, { st with player_name := none, player_mode := .spectator }, [])
    | some rn =>
      match lookupRoom rooms rn with
      | none =>
        (rooms, { st with
          player_name := none, joined_room := none,
          player_mode := .spectator }, [])
      | some room =>
        let room1 := room.remove_player ops pn
        let bc := match broadcast_player_list room1 false with
          | .ok p => p
          | .error _ => []
        (updateRoom rooms rn (fun _ => room1),
          { st with
            player_name := none, joined_room := none,
            player_mode := .spectator }, bc)

/-- The ignored roster entry computed at the top of `do_join`: the caller's
own previous name, but only when re-joining the same room. -/
def joinIgnoreName (st : ConnState) (room_name : String) : Option String :=
  match st.joined_room with
  | some jr => if jr = room_name then st.player_name else none
  | none => none

/-- `ServerInstance::do_join`.  Validation (`can_add_player`) happens first
and fails without touching anything; only then the old entry is removed
(`do_leave!`), the new entry inserted and the roster broadcast. -/
def do_join {G : Type} (ops : GameOps G) (rooms : RoomMap G) (st : ConnState)
    (room_name player_name : String) (player_mode : PlayerMode) :
    RoomMap G × ConnState × List MulticastPacket × Except String Unit :=
  match lookupRoom rooms room_name with
  | none =>
    (rooms, st, [], .error ("join: Room '" ++ room_name ++ "' not found."))
  | some room =>
    match room.can_add_player player_name player_mode
        (joinIgnoreName st room_name) with
    | .error e => (rooms, st, [], .error e)
    | .ok _ =>
      let r1 := doLeave ops rooms st
      match lookupRoom r1.1 room_name with
      | none =>
        (r1.1, r1.2.1, r1.2.2,
          .error ("join: Room '" ++ room_name ++ "' not found."))
      | some room1 =>
        match room1.add_player ops player_name player_mode with
        | .error e => (r1.1, r1.2.1, r1.2.2, .error e)
        | .ok room2 =>
          let st2 := { r1.2.1 with
            player_mode := player_mode,
            player_name := some player_name,
            joined_room := some room2.name }
          let bc2 := match broadcast_player_list room2 true with
            | .ok p => p
            | .error _ => []
          (updateRoom r1.1 room_name (fun _ => room2), st2,
            r1.2.2 ++ bc2, .ok ())

/-- The field validation of the `Join` dispatch arm: room name, then player
name, then mode. -/
def parseJoin (m : Msg) : Except String (String × String × PlayerMode) :=
  match m.body with
  | .join rlen rname plen pname pmode =>
    match strFromNet rname rlen with
    | .error _ => .error "Received invalid room name."
    | .ok rn =>
      match strFromNet pname plen with
      | .error _ => .error "Received invalid player name."
      | .ok pn =>
        match num_to_player_mode pmode with
        | .error _ => .error "Received invalid player mode."
        | .ok pm => .ok (rn, pn, pm)
  | _ => .error "not a Join message"

/-- The `Join` arm of `handle_rx_message`: run `do_join` on the parsed
fields, then reply `Result` OK, or NOK with `Join failed: ...` (the error
additionally propagates to the caller, where it is logged). -/
def handle_join {G : Type} (ops : GameOps G) (rooms : RoomMap G)
    (st : ConnState) (parsed : Except String (String × String × PlayerMode))
    (msg : Msg) :
    RoomMap G × ConnState × List Msg × List MulticastPacket ×
      Except String Unit :=
  let r := match parsed with
    | .error e =>
      (rooms, st, ([] : List MulticastPacket), (Except.error e : Except String Unit))
    | .ok (rn, pn, pm) => do_join ops rooms st rn pn pm
  match r with
  | (rooms1, st1, bc, .ok _) =>
    let sr := sendMsg st1 (msgResultNew msg MSG_RESULT_OK "")
    (rooms1, sr.1, [sr.2], bc, .ok ())
  | (rooms1, st1, bc, .error e) =>
    let sr := sendMsg st1 (msgResultNew msg MSG_RESULT_NOK ("Join failed: " ++ e))
    (rooms1, sr.1, [sr.2], bc, .error ("Join failed: " ++ e))

/-! ## Room-scoped message dispatch -/

/-- `ServerInstance::handle_rx_room_message`.  The first step requires a
joined room: when the connection is in no room (or its room vanished) the
function returns an error without emitting anything. -/
def handle_rx_room_message {G : Type} (ops : GameOps G) (rooms : RoomMap G)
    (st : ConnState) (m : Msg) :
    RoomMap G × ConnState × List Msg × List MulticastPacket ×
      Except String Unit :=
  match st.joined_room with
  | none => (rooms, st, [], [], .error "Not in a room.")
  | some rn =>
    match lookupRoom rooms rn with
    | none => (rooms, st, [], [], .error ("Room '" ++ rn ++ "' not found."))
    | some room =>
      match m.body with
      | .reset =>
        let gs1 := ops.setPlayerMode room.game_state st.player_mode
        let gs2 := ops.resetGame gs1 false
        let rp := broadcast_game_state ops st { room with game_state := gs2 }
        let sr := sendMsg st (msgResultNew m MSG_RESULT_OK "")
        (updateRoom rooms rn (fun _ => rp.1), sr.1, [sr.2], [rp.2], .ok ())
      | .reqGameState =>
        let gs1 := ops.setPlayerMode room.game_state st.player_mode
        let stateMsg := ops.makeStateMessage gs1
        let sr := sendMsg st stateMsg
        (updateRoom rooms rn (fun _ => { room with game_state := gs1 }),
          sr.1, [sr.2], [], .ok ())
      | .gameState _ _ _ _ _ =>
        let gs1 := ops.setPlayerMode room.game_state st.player_mode
        let eg := ops.readStateMessage gs1 m.body false
        let rp := broadcast_game_state ops st { room with game_state := eg.2 }
        let sr := match eg.1 with
          | none => sendMsg st (msgResultNew m MSG_RESULT_OK "")
          | some e => sendMsg st (msgResultNew m MSG_RESULT_NOK e)
        (updateRoom rooms rn (fun _ => rp.1), sr.1, [sr.2], [rp.2], .ok ())
      | .reqPlayerList =>
        match gen_player_list_msgs room with
        | .error e => (rooms, st, [], [], .error e)
        | .ok msgs =>
          let sr := sendMsgs st msgs
          (rooms, sr.1, sr.2, [], .ok ())
      | .playerList _ _ _ _ _ =>
        let sr := sendMsg st (msgResultNew m MSG_RESULT_NOK
          "MsgPlayerList not supported.")
        (rooms, sr.1, [sr.2], [], .ok ())
      | .reqRecord =>
        let gs1 := ops.setPlayerMode room.game_state st.player_mode
        let record := ops.recordText gs1
        let sr := sendMsgs st (msgRecordNew record)
        let sr2 := sendMsg sr.1 (msgResultNew m MSG_RESULT_OK "")
        (updateRoom rooms rn (fun _ => { room with game_state := gs1 }),
          sr2.1, sr.2 ++ [sr2.2], [], .ok ())
      | .record _ _ _ _ =>
        let sr := sendMsg st (msgResultNew m MSG_RESULT_NOK
          "MsgRecord not supported.")
        (rooms, sr.1, [sr.2], [], .ok ())
      | .move _ _ _ _ =>
        let gs1 := ops.setPlayerMode room.game_state st.player_mode
        match ops.handleMove gs1 m.body with
        | (none, gs2) =>
          let rp := broadcast_game_state ops st { room with game_state := gs2 }
          let sr := sendMsg st (msgResultNew m MSG_RESULT_OK "")
          (updateRoom rooms rn (fun _ => rp.1), sr.1, [sr.2], [rp.2], .ok ())
        | (some e, gs2) =>
          let text := "token move error: " ++ e
          let sr := sendMsg st (msgResultNew m MSG_RESULT_NOK text)
          (updateRoom rooms rn (fun _ => { room with game_state := gs2 }),
            sr.1, [sr.2], [], .error text)
      | .say _ _ _ _ =>
        let msg2 := setSayPlayerName m (match st.player_name with
          | some p => p
          | none => "")
        let pack := mkBroadcast msg2 (some room.name) true .noSync
        let sr := sendMsg st (msgResultNew msg2 MSG_RESULT_OK "")
        (rooms, sr.1, [sr.2], [pack], .ok ())
      | _ =>
        (rooms, st, [], [],
          .error "handle_rx_room_message: Received invalid message.")

/-! ## Top-level message dispatch and receive path -/

/-- `ServerInstance::handle_rx_message`. -/
def handle_rx_message {G : Type} (ops : GameOps G) (rooms : RoomMap G)
    (st : ConnState) (m : Msg) :
    RoomMap G × ConnState × List Msg × List MulticastPacket ×
      Except String Unit :=
  match m.body with
  | .nop | .pong | .result _ _ _ _ => (rooms, st, [], [], .ok ())
  | .ping =>
    let sr := sendMsg st msgPongNew
    (rooms, sr.1, [sr.2], [], .ok ())
  | .join _ _ _ _ _ => handle_join ops rooms st (parseJoin m) m
  | .leave =>
    let r1 := doLeave ops rooms st
    let sr := sendMsg r1.2.1 (msgResultNew m MSG_RESULT_OK "")
    (r1.1, sr.1, [sr.2], r1.2.2, .ok ())
  | .reqRoomList =>
    match gen_room_list_msgs rooms with
    | .error e => (rooms, st, [], [], .error e)
    | .ok msgs =>
      let sr := sendMsgs st msgs
      (rooms, sr.1, sr.2, [], .ok ())
  | .roomList _ _ _ _ =>
    let sr := sendMsg st (msgResultNew m MSG_RESULT_NOK
      "Cannot change room list.")
    (rooms, sr.1, [sr.2], [], .ok ())
  | _ => handle_rx_room_message ops rooms st m

/-- `ServerInstance::handle_rx_data`: decode one message and dispatch it.
Dispatch errors are logged, not propagated (`We don't forward this error to
our caller`); only decode errors reach the caller. -/
def handle_rx_data {G : Type} (ops : GameOps G) (rooms : RoomMap G)
    (st : ConnState) (data : List Nat) :
    Except String (RoomMap G × ConnState × List Msg × List MulticastPacket ×
      Option Nat) :=
  match message_from_bytes data with
  | .ok (msgLen, some msg) =>
    let r := handle_rx_message ops rooms st msg
    .ok (r.1, r.2.1, r.2.2.1, r.2.2.2.1, some msgLen)
  | .ok (_, none) => .ok (rooms, st, [], [], none)
  | .error e => .error e

/-! ## Multicast receive path -/

/-- `ServerInstance::handle_rx_multicast_message`: `Say`/`GameState` are
forwarded only while joined to a room; `PlayerList`/`RoomList` always. -/
def handle_rx_multicast_message (st : ConnState) (m : Msg) :
    ConnState × List Msg × Except String Unit :=
  match m.body with
  | .say _ _ _ _ =>
    if st.joined_room.isSome then
      let sr := sendMsg st m
      (sr.1, [sr.2], .ok ())
    else (st, [], .ok ())
  | .gameState _ _ _ _ _ =>
    if st.joined_room.isSome then
      let sr := sendMsg st m
      (sr.1, [sr.2], .ok ())
    else (st, [], .ok ())
  | .playerList _ _ _ _ _ =>
    let sr := sendMsg st m
    (sr.1, [sr.2], .ok ())
  | .roomList _ _ _ _ =>
    let sr := sendMsg st m
    (sr.1, [sr.2], .ok ())
  | _ => (st, [], .error "Received unexpected multicast.")

/-- `ServerInstance::handle_rx_multicast_data`: a joined connection
discards any packet whose tag differs from its room's name bytes; an
unjoined connection discards any packet with a non-empty tag; surviving
packets are decoded and forwarded. -/
def handle_rx_multicast_data (st : ConnState) (pack : MulticastPacket) :
    ConnState × List Msg × Except String Unit :=
  if (match st.joined_room with
      | some jr => pack.meta_data != strToBytes jr
      | none => pack.meta_data != []) then
    (st, [], .ok ())
  else
    match message_from_bytes pack.data with
    | .ok (_len, some m) => handle_rx_multicast_message st m
    | .ok (_len, none) =>
      (st, [], .error "Multicast: Received incomplete message.")
    | .error e => (st, [], .error e)

/-! ## Claim C1: room-scoped requests while not joined -/

/-- The six room-scoped request kinds named by the claim. -/
def isC1Request (b : MsgBody) : Bool :=
  match b with
  | .reset | .move _ _ _ _ | .say _ _ _ _ | .gameState _ _ _ _ _
  | .reqPlayerList | .reqRecord => true
  | _ => false

def stNotJoined : ConnState := ⟨0, none, none, .spectator⟩

def mResetC1 : Msg :=
  ⟨MsgHeader.new MSG_MAGIC MSG_HEADER_SIZE MSG_ID_RESET 5, .reset⟩

/-- C1 counterexample: a `Reset` received while not joined to any room
produces NO reply at all — the sent-message list is empty, not a single
NOK `Result`; the error is merely returned (and logged by the caller). -/
theorem C1_counterexample :
    handle_rx_message opsUnit ([] : RoomMap Unit) stNotJoined mResetC1 =
      ([], stNotJoined, [], [], .error "Not in a room.") ∧
    (handle_rx_message opsUnit ([] : RoomMap Unit) stNotJoined
      mResetC1).2.2.1.length = 0 :=
  ⟨rfl, rfl⟩

/-- C1 amended: a room-scoped request (Reset, Move, Say, GameState,
ReqPlayerList, ReqRecord) received while not joined to any room produces no
reply and no broadcast and leaves all state unchanged; the handler returns
the error `Not in a room.`, which `handle_rx_data` recovers locally — it
still reports the message as consumed (`Ok`), so the connection stays open
and the receive loop continues. -/
theorem C1_not_in_room {G : Type} (ops : GameOps G) (rooms : RoomMap G)
    (st : ConnState) (m : Msg) (h1 : st.joined_room = none)
    (h2 : isC1Request m.body = true) :
    handle_rx_message ops rooms st m =
      (rooms, st, [], [], .error "Not in a room.") ∧
    (m.Adm → handle_rx_data ops rooms st m.toBytes =
      .ok (rooms, st, [], [], some (msgSize m.body))) := by
  have hmain : handle_rx_message ops rooms st m =
      (rooms, st, [], [], .error "Not in a room.") := by
    cases hb : m.body <;>
      first
      | (simp only [handle_rx_message, hb, handle_rx_room_message, h1]; done)
      | simp [isC1Request, hb] at h2
  refine ⟨hmain, fun hadm => ?_⟩
  simp only [handle_rx_data, message_roundtrip m hadm, hmain]

theorem C1_not_in_room_witness :
    handle_rx_message opsUnit ([] : RoomMap Unit) stNotJoined mMoveSmall =
      ([], stNotJoined, [], [], .error "Not in a room.") ∧
    handle_rx_data opsUnit ([] : RoomMap Unit) stNotJoined mMoveSmall.toBytes =
      .ok ([], stNotJoined, [], [], some (msgSize mMoveSmall.body)) :=
  ⟨(C1_not_in_room opsUnit [] stNotJoined mMoveSmall (by decide) (by decide)).1,
    (C1_not_in_room opsUnit [] stNotJoined mMoveSmall (by decide)
      (by decide)).2 (by decide)⟩

/-! ## Claim C2: receiver-side multicast scoping -/

def stY : ConnState := ⟨0, some "r1", some "Y", .spectator⟩
def stZ : ConnState := ⟨0, some "r2", some "Z", .spectator⟩

def mRoomListG : Msg :=
  ⟨MsgHeader.new MSG_MAGIC MSG_ROOM_LIST_SIZE MSG_ID_ROOMLIST 0,
    .roomList 1 0 2 (strToBytes "r1" ++ List.replicate 62 0)⟩

/-- C2 counterexample: a connection joined to room `r1` DISCARDS a packet
with an empty (global) room tag — while the very same packet tagged `r1` is
surfaced and forwarded.  Empty-tagged packets are not treated like
matching-tagged ones for joined connections. -/
theorem C2_counterexample :
    handle_rx_multicast_data stY ⟨mRoomListG.toBytes, [], false, .noSync⟩ =
      (stY, [], .ok ()) ∧
    handle_rx_multicast_data stY
        ⟨mRoomListG.toBytes, strToBytes "r1", false, .noSync⟩ =
      ({ stY with sequence := 1 }, [mRoomListG.setSequence 0], .ok ()) :=
  ⟨rfl, rfl⟩

/-- C2 amended: a joined connection surfaces a received packet only when
the packet's tag equals its joined room's name bytes; every other tag —
including the empty global tag — is discarded.  Empty-tagged packets are
surfaced only by connections joined to no room. -/
theorem C2_receiver_scoping (st : ConnState) (pack : MulticastPacket) :
    (∀ jr, st.joined_room = some jr → pack.meta_data ≠ strToBytes jr →
      handle_rx_multicast_data st pack = (st, [], .ok ())) ∧
    (st.joined_room = none → pack.meta_data ≠ [] →
      handle_rx_multicast_data st pack = (st, [], .ok ())) := by
  constructor
  · intro jr hj hne
    rw [handle_rx_multicast_data, if_pos (by rw [hj]; simpa using hne)]
  · intro hj hne
    rw [handle_rx_multicast_data, if_pos (by rw [hj]; simpa using hne)]

theorem C2_receiver_scoping_witness :
    handle_rx_multicast_data stZ ⟨[], strToBytes "r1", false, .noSync⟩ =
      (stZ, [], .ok ()) ∧
    handle_rx_multicast_data stNotJoined
        ⟨[], strToBytes "r1", false, .noSync⟩ =
      (stNotJoined, [], .ok ()) :=
  ⟨(C2_receiver_scoping stZ ⟨[], strToBytes "r1", false, .noSync⟩).1 "r2"
      rfl (by decide),
    (C2_receiver_scoping stNotJoined
      ⟨[], strToBytes "r1", false, .noSync⟩).2 rfl (by decide)⟩

/-! ## Claim C9: broadcast fan-out and scoping -/

def mGSr1 : Msg :=
  ⟨MsgHeader.new MSG_MAGIC MSG_GAME_STATE_SIZE MSG_ID_GAMESTATE 0,
    .gameState (List.replicate 35 0) 0 0 0 0⟩

def packR1 : MulticastPacket := ⟨mGSr1.toBytes, strToBytes "r1", false, .noSync⟩

set_option maxRecDepth 10000 in
/-- C9: with X and Y joined to `r1` and Z joined to `r2`, after X pushes an
`r1`-tagged packet with `include_self = false`, one router pass forwards a
copy to Y's and Z's inboxes but not back to X; the receiver-side filter
then forwards it on Y and discards it on Z — so only Y surfaces it. -/
theorem C9_broadcast_scoping :
    run_router [⟨[packR1], [], false⟩, ⟨[], [], false⟩, ⟨[], [], false⟩] =
      [⟨[], [], false⟩, ⟨[], [packR1], false⟩, ⟨[], [packR1], false⟩] ∧
    handle_rx_multicast_data stY packR1 =
      ({ stY with sequence := 1 }, [mGSr1.setSequence 0], .ok ()) ∧
    handle_rx_multicast_data stZ packR1 = (stZ, [], .ok ()) :=
  ⟨rfl, rfl, rfl⟩

/-! ## Claim C4: failed joins change nothing and reply NOK -/

/-- C4: when a Join fails validation — room not found, or `can_add_player`
rejects (name taken, mode conflict, room full) — `handle_join` leaves the
whole room map and the connection's joined-room/name/mode untouched (only
the outbound sequence counter advances, by sending the reply), emits no
broadcast, and sends exactly one `Result` with code NOK and the text
`Join failed: <reason>`. -/
theorem C4_join_failure {G : Type} (ops : GameOps G) (rooms : RoomMap G)
    (st : ConnState) (rn pn : String) (pm : PlayerMode) (msg : Msg)
    (hfail : lookupRoom rooms rn = none ∨
      ∃ room e, lookupRoom rooms rn = some room ∧
        room.can_add_player pn pm (joinIgnoreName st rn) = .error e) :
    ∃ e, handle_join ops rooms st (.ok (rn, pn, pm)) msg =
      (rooms, { st with sequence := (st.sequence + 1) % 2 ^ 32 },
        [(msgResultNew msg MSG_RESULT_NOK ("Join failed: " ++ e)).setSequence
          st.sequence],
        [], .error ("Join failed: " ++ e)) := by
  rcases hfail with hnone | ⟨room, e, hsome, herr⟩
  · refine ⟨"join: Room '" ++ rn ++ "' not found.", ?_⟩
    simp only [handle_join, do_join, hnone, sendMsg]
  · refine ⟨e, ?_⟩
    simp only [handle_join, do_join, hsome, herr, sendMsg]

def roomsW : RoomMap Unit := [("default", roomDefaultU)]

theorem C4_join_failure_witness :
    ∃ e, handle_join opsUnit roomsW stNotJoined (.ok ("nosuch", "A", .wolf))
        mJoinBoundary =
      (roomsW, { stNotJoined with sequence := 1 % 2 ^ 32 },
        [(msgResultNew mJoinBoundary MSG_RESULT_NOK
          ("Join failed: " ++ e)).setSequence 0],
        [], .error ("Join failed: " ++ e)) := by
  have h := C4_join_failure opsUnit roomsW stNotJoined "nosuch" "A" .wolf
    mJoinBoundary (Or.inl (by decide))
  simpa using h

end Wolfsmuehle
